import Mathlib

/-!
Shallow embedding of the stock ledger and balance-reconciliation engine of the
kustomproject repository (server/services/movementService.js,
server/services/inventoryService.js, schema server/mysql/2025_08_inventory.sql),
together with proofs of the specification claims about it.

Modelling conventions:
* SQL tables are lists of row structures, kept in insertion order; AUTO_INCREMENT
  ids are explicit counters in the `DB` state.
* Machine numbers: quantities are `Int` (SQL INT), money is `Rat` (SQL DECIMAL /
  JS number, idealized as exact rationals).
* `CURRENT_TIMESTAMP` on a movement row is modelled by the monotone movement
  counter, so `created_at` order coincides with insertion/id order, as it does
  for the single-writer service.
* Fallible service calls return `Except Err`; a thrown JS error / rejected SQL
  statement is an `Err` value, and a transaction that fails rolls back by
  discarding the partial state (`step` keeps the pre-state on error).
* UNIQUE KEY and FOREIGN KEY constraints of the schema are checked at the
  point of the corresponding INSERT, mirroring where MySQL would reject.
-/

deriving instance DecidableEq for Except

set_option synthInstance.maxSize 10000
set_option maxRecDepth 4000
set_option maxHeartbeats 1000000

namespace Kustom

/-- movement_type ENUM('IN','OUT') of stock_movements. -/
inductive MType
  | IN
  | OUT
deriving DecidableEq, Repr

/-- Error taxonomy: each constructor stands for one class of JS `throw` /
SQL rejection in the services (messages reproduced from the source). -/
inductive Err
  | invalidArgument (msg : String)
  | invalidReasonCode (reason : String) (mtype : MType)
  | insufficientStock (available required : Int)
  | notFound (msg : String)
  | invalidState (msg : String)
  | fkViolation (table : String)
  | dupEntry (table : String)
deriving DecidableEq, Repr

/-- One row of stock_movements (append-only ledger). -/
structure Movement where
  id : Nat
  variantId : Nat
  locationId : Nat
  movementType : MType
  reasonCode : String
  qty : Int
  unit : String
  unitCost : Option Rat
  currency : String
  refTable : Option String
  refId : Option Nat
  refCode : Option String
  note : Option String
  pic : Option String
  createdBy : Option String
  createdAt : Nat
deriving DecidableEq, Repr

/-- One row of stock_balances (cached balance per variant x location). -/
structure BalanceRow where
  variantId : Nat
  locationId : Nat
  qtyOnHand : Int
  avgCost : Rat
deriving DecidableEq, Repr

/-- One row of products (only the columns the core touches). -/
structure ProductRow where
  id : Nat
  name : String
  price : Int
deriving DecidableEq, Repr

/-- One row of colors. -/
structure ColorRow where
  id : Nat
  name : String
  hexCode : String
deriving DecidableEq, Repr

/-- One row of sizes. -/
structure SizeRow where
  id : Nat
  name : String
  sort : Int
deriving DecidableEq, Repr

/-- One row of product_colors. -/
structure ProductColorRow where
  id : Nat
  productId : Nat
  colorId : Nat
deriving DecidableEq, Repr

/-- One row of product_color_sizes; its id is the variant id. -/
structure VariantRow where
  id : Nat
  productColorId : Nat
  sizeId : Nat
deriving DecidableEq, Repr

/-- status ENUM of stock_opname. -/
inductive OpStatus
  | DRAFT
  | ACTIVE
  | COMPLETED
  | CANCELLED
deriving DecidableEq, Repr

/-- One row of stock_opname (physical count session). -/
structure OpnameSession where
  id : Nat
  code : String
  locationId : Option Nat
  status : OpStatus
  createdBy : String
deriving DecidableEq, Repr

/-- One row of stock_opname_items. -/
structure OpnameItem where
  opnameId : Nat
  variantId : Nat
  locationId : Nat
  systemQty : Int
  countedQty : Option Int
  note : Option String
  countedBy : Option String
deriving DecidableEq, Repr

/-- variance_qty GENERATED ALWAYS AS (counted_qty - system_qty): NULL while
counted_qty is NULL. -/
def OpnameItem.varianceQty (it : OpnameItem) : Option Int :=
  it.countedQty.map (fun c => c - it.systemQty)

/-- The relational store plus the ambient ALLOW_NEGATIVE configuration flag. -/
structure DB where
  products : List ProductRow
  colors : List ColorRow
  sizes : List SizeRow
  productColors : List ProductColorRow
  variants : List VariantRow
  locations : List Nat
  balances : List BalanceRow
  movements : List Movement
  opnames : List OpnameSession
  opnameItems : List OpnameItem
  nextProductId : Nat
  nextColorId : Nat
  nextSizeId : Nat
  nextPcId : Nat
  nextVariantId : Nat
  nextMovementId : Nat
  nextOpnameId : Nat
  allowNegative : Bool
deriving DecidableEq, Repr

/-- SELECT ... FROM stock_balances WHERE variant_id = ? AND location_id = ?. -/
def findBalance (s : DB) (v l : Nat) : Option BalanceRow :=
  s.balances.find? (fun r => r.variantId == v && r.locationId == l)

/-- The quantity a reader sees for a pair: `balanceRows[0]?.qty_on_hand || 0`. -/
def cachedQty (s : DB) (v l : Nat) : Int :=
  match findBalance s v l with
  | some r => r.qtyOnHand
  | none => 0

/-- The average cost a reader sees for a pair: `parseFloat(avg_cost) || 0`. -/
def avgCostAt (s : DB) (v l : Nat) : Rat :=
  match findBalance s v l with
  | some r => r.avgCost
  | none => 0

/-- Signed quantity of a ledger row: IN counts positive, OUT negative. -/
def signedQty (m : Movement) : Int :=
  match m.movementType with
  | .IN => m.qty
  | .OUT => -m.qty

/-- Replayed signed sum of a list of ledger rows for one pair. -/
def sumFor (ms : List Movement) (v l : Nat) : Int :=
  ((ms.filter (fun m => m.variantId == v && m.locationId == l)).map signedQty).sum

/-- Replayed ledger sum for a (variant, location) pair, from zero. -/
def ledgerQty (s : DB) (v l : Nat) : Int :=
  sumFor s.movements v l

/-- Replayed ledger sum restricted to rows strictly before a date; this is the
SUM(CASE WHEN movement_type = 'IN' THEN qty ELSE -qty END) ... created_at < ?
opening-balance query of getStockCard. -/
def ledgerQtyBefore (s : DB) (v l : Nat) (d : Nat) : Int :=
  ((s.movements.filter
      (fun m => m.variantId == v && m.locationId == l && m.createdAt < d)).map signedQty).sum

/-- The per-direction reason-code whitelist of createMovement. -/
def validReasons : MType → List String
  | .IN => ["OVERPROD_IN", "RETURN_IN", "ADJUSTMENT_IN", "TRANSFER_IN"]
  | .OUT => ["SALES_OUT", "GIFT_OUT", "ADJUSTMENT_OUT", "TRANSFER_OUT"]

/-- Argument object of createMovement, with the source's defaults. -/
structure MovePayload where
  variantId : Nat
  locationId : Nat
  movementType : MType
  reasonCode : String
  qty : Int
  unit : String := "pcs"
  unitCost : Option Rat := none
  currency : String := "IDR"
  refTable : Option String := none
  refId : Option Nat := none
  refCode : Option String := none
  note : Option String := none
  pic : Option String := none
  createdBy : Option String := none
deriving DecidableEq, Repr

/-- updateStockBalance: read current (qty, avg) defaulting to (0, 0), apply the
signed quantity, recompute the moving average only for a costed IN, then
UPDATE the existing row or INSERT a fresh one. -/
def updateStockBalance (s : DB) (variantId locationId : Nat) (movementType : MType)
    (qty : Int) (unitCost : Option Rat) : DB :=
  let row? := findBalance s variantId locationId
  let currentQty : Int :=
    match row? with
    | some r => r.qtyOnHand
    | none => 0
  let currentAvgCost : Rat :=
    match row? with
    | some r => r.avgCost
    | none => 0
  let newQty : Int :=
    match movementType with
    | .IN => currentQty + qty
    | .OUT => currentQty - qty
  let newAvgCost : Rat :=
    match movementType, unitCost with
    | .IN, some c =>
        if 0 < c then
          ((currentQty : Rat) * currentAvgCost + (qty : Rat) * c) / ((newQty : Int) : Rat)
        else currentAvgCost
    | _, _ => currentAvgCost
  match row? with
  | some _ =>
      { s with balances :=
          s.balances.map (fun r =>
            if r.variantId == variantId && r.locationId == locationId then
              { r with qtyOnHand := newQty, avgCost := newAvgCost }
            else r) }
  | none =>
      { s with balances :=
          s.balances ++ [⟨variantId, locationId, newQty, newAvgCost⟩] }

/-- The ledger row built by the INSERT INTO stock_movements of createMovement. -/
def mkMovement (s : DB) (p : MovePayload) : Movement :=
  { id := s.nextMovementId
    variantId := p.variantId
    locationId := p.locationId
    movementType := p.movementType
    reasonCode := p.reasonCode
    qty := p.qty
    unit := p.unit
    unitCost := p.unitCost
    currency := p.currency
    refTable := p.refTable
    refId := p.refId
    refCode := p.refCode
    note := p.note
    pic := p.pic
    createdBy := p.createdBy
    createdAt := s.nextMovementId }

/-- Appending the freshly inserted ledger row. -/
def advanceLedger (s : DB) (m : Movement) : DB :=
  { s with movements := s.movements ++ [m], nextMovementId := s.nextMovementId + 1 }

/-- createMovement: validation in source order (required fields via JS truthiness,
positivity, reason/direction whitelist, insufficient-stock gate for OUT under the
ALLOW_NEGATIVE flag), then the ledger INSERT (with its FOREIGN KEYs) and the
balance upsert. -/
def createMovement (s : DB) (p : MovePayload) : Except Err (Movement × DB) :=
  if p.variantId = 0 ∨ p.locationId = 0 ∨ p.reasonCode = "" ∨ p.qty = 0 then
    .error (.invalidArgument "Missing required fields for stock movement")
  else if p.qty ≤ 0 then
    .error (.invalidArgument "Quantity must be positive")
  else if p.reasonCode ∉ validReasons p.movementType then
    .error (.invalidReasonCode p.reasonCode p.movementType)
  else if p.movementType = .OUT ∧ s.allowNegative = false ∧
      cachedQty s p.variantId p.locationId < p.qty then
    .error (.insufficientStock (cachedQty s p.variantId p.locationId) p.qty)
  else if ¬ (s.variants.any (fun r => r.id == p.variantId) ∧ s.locations.contains p.locationId) then
    .error (.fkViolation "stock_movements")
  else
    let m := mkMovement s p
    .ok (m, updateStockBalance (advanceLedger s m) p.variantId p.locationId
          p.movementType p.qty p.unitCost)

/-- JS `a || b` on an optional string: null and the empty string are falsy. -/
def jsOrStr (o : Option String) (d : String) : String :=
  match o with
  | some t => if t = "" then d else t
  | none => d

/-- Argument object of transfer. -/
structure TransferReq where
  variantId : Nat
  fromLocationId : Nat
  toLocationId : Nat
  qty : Int
  refCode : Option String := none
  pic : Option String := none
  createdBy : Option String := none
  note : Option String := none
deriving DecidableEq, Repr

/-- transfer: reject same-location, then one TRANSFER_OUT at the source and one
TRANSFER_IN at the destination sharing the reference code, in one transaction. -/
def transferOutPayload (t : TransferReq) : MovePayload :=
  { variantId := t.variantId
    locationId := t.fromLocationId
    movementType := .OUT
    reasonCode := "TRANSFER_OUT"
    qty := t.qty
    refCode := t.refCode
    pic := t.pic
    createdBy := t.createdBy
    note := some (jsOrStr t.note ("Transfer to location " ++ toString t.toLocationId)) }

def transferInPayload (t : TransferReq) : MovePayload :=
  { variantId := t.variantId
    locationId := t.toLocationId
    movementType := .IN
    reasonCode := "TRANSFER_IN"
    qty := t.qty
    refCode := t.refCode
    pic := t.pic
    createdBy := t.createdBy
    note := some (jsOrStr t.note ("Transfer from location " ++ toString t.fromLocationId)) }

def transfer (s : DB) (t : TransferReq) : Except Err (Movement × Movement × DB) :=
  if t.fromLocationId = t.toLocationId then
    .error (.invalidArgument "Source and destination locations cannot be the same")
  else
    match createMovement s (transferOutPayload t) with
    | .error e => .error e
    | .ok (outMovement, s1) =>
        match createMovement s1 (transferInPayload t) with
        | .error e => .error e
        | .ok (inMovement, s2) => .ok (outMovement, inMovement, s2)

/-- The hard-coded product-name alias table of createVariantFromNames. -/
def productMapping : String → Option String
  | "T-SHIRT KATUN 26 / JULI / 2025" => some "T-shirt Katun PDK"
  | "T-SHIRT KATUN" => some "T-shirt Katun PDK"
  | "LONG SLEEVE" => some "Long Sleeve"
  | "HENLEY" => some "Henley"
  | "POLOSHIRT" => some "Poloshirt"
  | "POLO LONG SLEEVE" => some "Poloshirt Long Sleeve"
  | "KEMEJA PIQUE PANJANG" => some "Kemeja Pique PJG"
  | "KEMEJA PIQUE PENDEK" => some "Kemeja Pique PDK"
  | "KIDS T-SHIRT" => some "Kids T-shirt"
  | "KIDS HENLEY" => some "Kids T-shirt"
  | "POLOSHIRT KRAH VARIASI" => some "Poloshirt Krah Variasi"
  | "JAKET VARSITY" => some "Jaket Varsity"
  | "SWEATER" => some "Sweater"
  | "KAOS RAGLAN + PRODUK GET 1" => some "Kaos Premium 24s"
  | "KAOS RINGER" => some "Kaos Ringer"
  | "KAOS KRAH" => some "Kaos Krah"
  | "KAOS PREMIUM" => some "Kaos Premium 24s"
  | "KEMEJA DRILL" => some "Kemeja Drill"
  | "KAOS CARDED" => some "T-shirt Katun PDK"
  | "KAOS BASEBALL" => some "Kaos Baseball"
  | _ => none

/-- The best-effort size sort order of createVariantFromNames (default 10). -/
def sizeSortOrder : String → Int
  | "XS" => 1
  | "S" => 2
  | "M" => 3
  | "L" => 4
  | "XL" => 5
  | "XXL" => 6
  | "3XL" => 7
  | "4XL" => 8
  | "5XL" => 9
  | _ => 10

/-- SELECT id FROM products WHERE name = ?, else INSERT with the default price. -/
def getOrCreateProduct (s : DB) (name : String) : Nat × DB :=
  match s.products.find? (fun r => r.name == name) with
  | some r => (r.id, s)
  | none =>
      (s.nextProductId,
        { s with products := s.products ++ [⟨s.nextProductId, name, 50000⟩]
                 nextProductId := s.nextProductId + 1 })

/-- SELECT id FROM colors WHERE name = ?, else INSERT with the default gray hex. -/
def getOrCreateColor (s : DB) (name : String) : Nat × DB :=
  match s.colors.find? (fun r => r.name == name) with
  | some r => (r.id, s)
  | none =>
      (s.nextColorId,
        { s with colors := s.colors ++ [⟨s.nextColorId, name, "#808080"⟩]
                 nextColorId := s.nextColorId + 1 })

/-- SELECT id FROM sizes WHERE name = ?, else INSERT with the best-effort sort. -/
def getOrCreateSize (s : DB) (name : String) : Nat × DB :=
  match s.sizes.find? (fun r => r.name == name) with
  | some r => (r.id, s)
  | none =>
      (s.nextSizeId,
        { s with sizes := s.sizes ++ [⟨s.nextSizeId, name, sizeSortOrder name⟩]
                 nextSizeId := s.nextSizeId + 1 })

/-- SELECT id FROM product_colors WHERE product_id = ? AND color_id = ?, else
INSERT (the FOREIGN KEYs of product_colors reference products and colors). -/
def getOrCreateProductColor (s : DB) (productId colorId : Nat) :
    Except Err (Nat × DB) :=
  match s.productColors.find? (fun r => r.productId == productId && r.colorId == colorId) with
  | some r => .ok (r.id, s)
  | none =>
      if ¬ (s.products.any (fun r => r.id == productId) ∧
            s.colors.any (fun r => r.id == colorId)) then
        .error (.fkViolation "product_colors")
      else
        .ok (s.nextPcId,
          { s with productColors := s.productColors ++ [⟨s.nextPcId, productId, colorId⟩]
                   nextPcId := s.nextPcId + 1 })

/-- INSERT INTO stock_balances (variant_id, location_id, qty_on_hand) VALUES (?, ?, 0)
once per known location, honouring the UNIQUE (variant_id, location_id) key. -/
def insertZeroBalances (vid : Nat) : List Nat → DB → Except Err DB
  | [], s => .ok s
  | l :: ls, s =>
      if s.balances.any (fun r => r.variantId == vid && r.locationId == l) then
        .error (.dupEntry "stock_balances")
      else
        insertZeroBalances vid ls
          { s with balances := s.balances ++ [⟨vid, l, 0, 0⟩] }

/-- INSERT INTO product_color_sizes, honouring the UNIQUE (product_color_id, size_id)
key, then the zero-balance initialization for every known location. -/
def insertVariantRow (s : DB) (pcId sizeId : Nat) : Except Err (Nat × DB) :=
  if s.variants.any (fun r => r.productColorId == pcId && r.sizeId == sizeId) then
    .error (.dupEntry "product_color_sizes")
  else
    let vid := s.nextVariantId
    let s1 := { s with variants := s.variants ++ [⟨vid, pcId, sizeId⟩]
                       nextVariantId := vid + 1 }
    match insertZeroBalances vid s1.locations s1 with
    | .error e => .error e
    | .ok s2 => .ok (vid, s2)

/-- createVariant (by ids): get-or-create the product_colors link, then the new
product_color_sizes row with zero balances, as one transaction. -/
def createVariant (s : DB) (productId colorId sizeId : Nat) : Except Err (Nat × DB) :=
  match getOrCreateProductColor s productId colorId with
  | .error e => .error e
  | .ok (pcId, s1) => insertVariantRow s1 pcId sizeId

/-- The variant-by-ids lookup of resolveVariantIdByIds / getStockCard:
pcs JOIN pc ON pcs.product_color_id = pc.id WHERE pc.product_id = ? AND
pc.color_id = ? AND pcs.size_id = ?. -/
def lookupVariantByIds (s : DB) (productId colorId sizeId : Nat) : Option Nat :=
  (s.variants.find? (fun r =>
      match s.productColors.find? (fun pc => pc.id == r.productColorId) with
      | some pc => pc.productId == productId && pc.colorId == colorId && r.sizeId == sizeId
      | none => false)).map (·.id)

/-- resolveVariantIdByIds: look the triple up, else create the variant. -/
def resolveVariantIdByIds (s : DB) (productId colorId sizeId : Nat) :
    Except Err (Nat × DB) :=
  match lookupVariantByIds s productId colorId sizeId with
  | some id => .ok (id, s)
  | none => createVariant s productId colorId sizeId

/-- The name-based variant lookup of resolveVariantId: the five-way JOIN matched
against the given (raw) product, color and size names. -/
def lookupVariantByNames (s : DB) (productName colorName sizeName : String) : Option Nat :=
  (s.variants.find? (fun r =>
      match s.productColors.find? (fun pc => pc.id == r.productColorId),
            s.sizes.find? (fun sz => sz.id == r.sizeId) with
      | some pc, some sz =>
          (match s.products.find? (fun p => p.id == pc.productId),
                 s.colors.find? (fun c => c.id == pc.colorId) with
           | some p, some c =>
               p.name == productName && c.name == colorName && sz.name == sizeName
           | _, _ => false)
      | _, _ => false)).map (·.id)

/-- createVariantFromNames: map the product name through the alias table, then
get-or-create product, color, size, the product_colors link, and finally the
new product_color_sizes row with zero balances, as one transaction. -/
def createVariantFromNames (s : DB) (productName colorName sizeName : String) :
    Except Err (Nat × Bool × DB) :=
  let mappedProductName := (productMapping productName).getD productName
  let pr := getOrCreateProduct s mappedProductName
  let co := getOrCreateColor pr.2 colorName
  let sz := getOrCreateSize co.2 sizeName
  match getOrCreateProductColor sz.2 pr.1 co.1 with
  | .error e => .error e
  | .ok (pcId, s4) =>
      match insertVariantRow s4 pcId sz.1 with
      | .error e => .error e
      | .ok (vid, s5) => .ok (vid, true, s5)

/-- resolveVariantId (by names, CSV import): return the first variant matching
the raw names with created=false, else create one. -/
def resolveVariantId (s : DB) (productName colorName sizeName : String) :
    Except Err (Nat × Bool × DB) :=
  match lookupVariantByNames s productName colorName sizeName with
  | some id => .ok (id, false, s)
  | none => createVariantFromNames s productName colorName sizeName

/-- startOpname: insert the ACTIVE session (opname_code is UNIQUE, location_id
has a FOREIGN KEY), then snapshot every balance with qty_on_hand > 0 (optionally
scoped to one location) into items with counted_qty NULL, in one transaction. -/
def startOpname (s : DB) (opnameCode : String) (locationId : Option Nat)
    (createdBy : String) : Except Err (OpnameSession × DB) :=
  if s.opnames.any (fun o => o.code == opnameCode) then
    .error (.dupEntry "stock_opname")
  else if locationId.any (fun l => !(s.locations.contains l)) then
    .error (.fkViolation "stock_opname")
  else
    let sess : OpnameSession :=
      { id := s.nextOpnameId, code := opnameCode, locationId := locationId
        status := .ACTIVE, createdBy := createdBy }
    let snapshot := s.balances.filter (fun r =>
      0 < r.qtyOnHand &&
        (match locationId with
         | some l => r.locationId == l
         | none => true))
    let items := snapshot.map (fun r =>
      ({ opnameId := sess.id, variantId := r.variantId, locationId := r.locationId
         systemQty := r.qtyOnHand, countedQty := none, note := none
         countedBy := none } : OpnameItem))
    .ok (sess,
      { s with opnames := s.opnames ++ [sess]
               opnameItems := s.opnameItems ++ items
               nextOpnameId := s.nextOpnameId + 1 })

/-- updateOpnameCount: UPDATE the item matching (opname_id, variant_id,
location_id); zero affected rows is the not-found error. -/
def updateOpnameCount (s : DB) (opnameId variantId locationId : Nat)
    (countedQty : Int) (countedBy : String) (note : Option String) :
    Except Err DB :=
  if s.opnameItems.any (fun it =>
      it.opnameId == opnameId && it.variantId == variantId && it.locationId == locationId) then
    .ok { s with opnameItems :=
      s.opnameItems.map (fun it =>
        if it.opnameId == opnameId && it.variantId == variantId &&
            it.locationId == locationId then
          { it with countedQty := some countedQty, countedBy := some countedBy, note := note }
        else it) }
  else
    .error (.notFound "Opname item not found")

/-- The WHERE clause of the commit query: counted_qty IS NOT NULL AND
variance_qty != 0, for this session. -/
def eligibleItem (oid : Nat) (it : OpnameItem) : Bool :=
  it.opnameId == oid &&
    (match it.varianceQty with
     | some v => v != 0
     | none => false)

/-- ORDER BY variance_qty DESC on the eligible items (any sort realizing the
SQL ordering; ties are unspecified in SQL). -/
def varDesc (a b : OpnameItem) : Prop :=
  b.varianceQty.getD 0 ≤ a.varianceQty.getD 0

instance : DecidableRel varDesc := fun a b =>
  inferInstanceAs (Decidable (b.varianceQty.getD 0 ≤ a.varianceQty.getD 0))

instance : IsTotal OpnameItem varDesc :=
  ⟨fun a b => le_total (b.varianceQty.getD 0) (a.varianceQty.getD 0)⟩

instance : IsTrans OpnameItem varDesc :=
  ⟨fun _ _ _ h h' => le_trans h' h⟩

/-- SELECT * FROM stock_opname_items WHERE opname_id = ? AND counted_qty IS NOT
NULL AND variance_qty != 0 ORDER BY variance_qty DESC. -/
def eligibleItems (s : DB) (oid : Nat) : List OpnameItem :=
  List.insertionSort varDesc (s.opnameItems.filter (eligibleItem oid))

/-- The createMovement payload booked for one variance item during commit. -/
def adjustmentPayload (code : String) (oid : Nat) (createdBy : Option String)
    (it : OpnameItem) : MovePayload :=
  let v := it.varianceQty.getD 0
  { variantId := it.variantId
    locationId := it.locationId
    movementType := if 0 < v then .IN else .OUT
    reasonCode := if 0 < v then "ADJUSTMENT_IN" else "ADJUSTMENT_OUT"
    qty := |v|
    refTable := some "stock_opname"
    refId := some oid
    refCode := some code
    note := some ("Stock opname adjustment: " ++ jsOrStr it.note "Physical count variance")
    pic := it.countedBy
    createdBy := createdBy }

/-- The adjustment loop of commitOpname: one createMovement per eligible item,
in order, collecting the booked movements. -/
def bookAdjustments (code : String) (oid : Nat) (createdBy : Option String) :
    List OpnameItem → DB → Except Err (List Movement × DB)
  | [], s => .ok ([], s)
  | it :: rest, s =>
      match createMovement s (adjustmentPayload code oid createdBy it) with
      | .error e => .error e
      | .ok (m, s1) =>
          match bookAdjustments code oid createdBy rest s1 with
          | .error e => .error e
          | .ok (ms, s2) => .ok (m :: ms, s2)

/-- Result object of commitOpname (adjustments plus the summary counts). -/
structure CommitResult where
  adjustments : List Movement
  totalItems : Nat
  positiveVariances : Nat
  negativeVariances : Nat
  totalAdjustments : Nat
deriving DecidableEq, Repr

/-- commitOpname: require an ACTIVE session, book one adjustment per non-null,
non-zero variance in descending variance order, then mark the session
COMPLETED, all in one transaction. -/
def commitOpname (s : DB) (opnameId : Nat) (createdBy : Option String) :
    Except Err (CommitResult × DB) :=
  match s.opnames.find? (fun o => o.id == opnameId && o.status == OpStatus.ACTIVE) with
  | none => .error (.invalidState "Opname not found or not active")
  | some sess =>
      let items := eligibleItems s opnameId
      match bookAdjustments sess.code opnameId createdBy items s with
      | .error e => .error e
      | .ok (adjustments, s1) =>
          let s2 := { s1 with
            opnames := s1.opnames.map (fun o =>
              if o.id == opnameId then { o with status := .COMPLETED } else o) }
          let res : CommitResult :=
            { adjustments := adjustments
              totalItems := items.length
              positiveVariances := (items.filter (fun i => 0 < i.varianceQty.getD 0)).length
              negativeVariances := (items.filter (fun i => i.varianceQty.getD 0 < 0)).length
              totalAdjustments := adjustments.length }
          .ok (res, s2)

/-- One line of a stock card, as produced by the running-balance map. -/
structure StockCardRow where
  movement : Movement
  qtyChange : Int
  runningBalance : Int
deriving DecidableEq, Repr

/-- Result object of getStockCard. -/
structure StockCard where
  variantId : Nat
  openingQty : Int
  currentQty : Int
  avgCost : Rat
  rows : List StockCardRow
deriving DecidableEq, Repr

/-- The running-balance map of getStockCard: each row carries the signed change
and the balance accumulated from the opening quantity. -/
def withRunning (opening : Int) : List Movement → List StockCardRow
  | [] => []
  | m :: ms =>
      let qc := signedQty m
      ⟨m, qc, opening + qc⟩ :: withRunning (opening + qc) ms

/-- The opening balance of a stock card: the replayed ledger strictly before
fromDate, or zero when no fromDate is given. -/
def openingOf (s : DB) (v l : Nat) (fromDate : Option Nat) : Int :=
  match fromDate with
  | some d => ledgerQtyBefore s v l d
  | none => 0

/-- getStockCard: resolve the variant from (product, color, size) ids, compute
the opening balance by replaying the ledger strictly before fromDate (0 when
fromDate is absent), list the movements in the window in (created_at, id) order
(the ledger list is kept in exactly that order), truncate to the limit when the
limit is truthy, attach running balances, and return them together with the
cached current balance. No reconciliation between the two is performed. -/
def getStockCard (s : DB) (productId colorId sizeId locationId : Nat)
    (fromDate toDate : Option Nat) (limit : Nat) : Except Err StockCard :=
  match lookupVariantByIds s productId colorId sizeId with
  | none => .error (.notFound "Variant not found")
  | some variantId =>
      let openingQty : Int := openingOf s variantId locationId fromDate
      let inWindow := s.movements.filter (fun m =>
        m.variantId == variantId && m.locationId == locationId &&
          (match fromDate with
           | some d => d ≤ m.createdAt
           | none => true) &&
          (match toDate with
           | some d => m.createdAt ≤ d
           | none => true))
      let sliced := if limit ≠ 0 then inWindow.take limit else inWindow
      .ok
        { variantId := variantId
          openingQty := openingQty
          currentQty := cachedQty s variantId locationId
          avgCost := avgCostAt s variantId locationId
          rows := withRunning openingQty sliced }

/-- One external request against the core; `importRow` is the per-row CSV-import
pipeline (name resolution then movement creation): a CSV row issues a
`importVariant` resolution followed by a `move`, and `newVariant` is the
by-ids creation used by the transaction flows. -/
inductive Op
  | move (p : MovePayload)
  | xfer (t : TransferReq)
  | newVariant (productId colorId sizeId : Nat)
  | importVariant (productName colorName sizeName : String)
  | opStart (code : String) (locationId : Option Nat) (createdBy : String)
  | opCount (opnameId variantId locationId : Nat) (countedQty : Int)
      (countedBy : String) (note : Option String)
  | opCommit (opnameId : Nat) (createdBy : Option String)
deriving DecidableEq, Repr

/-- Apply one request; the result is the committed state or the typed error. -/
def applyOp (s : DB) : Op → Except Err DB
  | .move p => (createMovement s p).map (·.2)
  | .xfer t => (transfer s t).map (·.2.2)
  | .newVariant productId colorId sizeId =>
      (resolveVariantIdByIds s productId colorId sizeId).map (·.2)
  | .importVariant productName colorName sizeName =>
      (resolveVariantId s productName colorName sizeName).map (·.2.2)
  | .opStart code locationId createdBy =>
      (startOpname s code locationId createdBy).map (·.2)
  | .opCount oid vid lid counted countedBy note =>
      updateOpnameCount s oid vid lid counted countedBy note
  | .opCommit oid createdBy => (commitOpname s oid createdBy).map (·.2)

/-- A failed request rolls its transaction back: the state is unchanged. -/
def step (s : DB) (o : Op) : DB :=
  match applyOp s o with
  | .ok s' => s'
  | .error _ => s

/-- Run a sequence of requests from a state. -/
def run (s : DB) (ops : List Op) : DB :=
  ops.foldl step s

/-- The freshly installed store: empty catalog and ledger, the two seeded
locations of 2025_08_inventory.sql, and the given ALLOW_NEGATIVE flag. -/
def initDB (allowNeg : Bool) : DB :=
  { products := [], colors := [], sizes := [], productColors := [], variants := []
    locations := [1, 2], balances := [], movements := [], opnames := []
    opnameItems := [], nextProductId := 1, nextColorId := 1, nextSizeId := 1
    nextPcId := 1, nextVariantId := 1, nextMovementId := 1, nextOpnameId := 1
    allowNegative := allowNeg }

/-- Signed contribution of a movement of the given direction and quantity. -/
def signedOf (mt : MType) (q : Int) : Int :=
  match mt with
  | .IN => q
  | .OUT => -q

/-- The ledger/balance consistency invariant: for every pair, the cached
quantity equals the replayed ledger sum from zero. -/
def LedgerBalanced (s : DB) : Prop :=
  ∀ v l, cachedQty s v l = ledgerQty s v l

/-- Structural well-formedness maintained by the store: every ledger row and
balance row references an existing variant, and AUTO_INCREMENT ids of
product_color_sizes stay below the counter. -/
def StoreWF (s : DB) : Prop :=
  (∀ m ∈ s.movements, s.variants.any (fun r => r.id == m.variantId) = true) ∧
  (∀ r ∈ s.variants, r.id < s.nextVariantId) ∧
  (∀ b ∈ s.balances, s.variants.any (fun r => r.id == b.variantId) = true)

/-- Frame relation: the ledger, balances, variants, sessions and flag of the
two states agree (only catalog rows and their counters may differ). -/
def SameCore (s s' : DB) : Prop :=
  s'.variants = s.variants ∧ s'.locations = s.locations ∧ s'.balances = s.balances ∧
  s'.movements = s.movements ∧ s'.opnames = s.opnames ∧ s'.opnameItems = s.opnameItems ∧
  s'.nextVariantId = s.nextVariantId ∧ s'.nextMovementId = s.nextMovementId ∧
  s'.allowNegative = s.allowNegative

/-- Placeholder movement used only to destructure optional results. -/
def mDefault : Movement :=
  { id := 0, variantId := 0, locationId := 0, movementType := .IN, reasonCode := ""
    qty := 0, unit := "", unitCost := none, currency := "", refTable := none
    refId := none, refCode := none, note := none, pic := none, createdBy := none
    createdAt := 0 }

/-- Placeholder stock-card row used only as a list-indexing default. -/
def rowDefault : StockCardRow :=
  { movement := mDefault, qtyChange := 0, runningBalance := 0 }

/-- Placeholder stock card used only to destructure optional results. -/
def cardDefault : StockCard :=
  { variantId := 0, openingQty := 0, currentQty := 0, avgCost := 0, rows := [] }

/-- Placeholder commit result used only to destructure optional results. -/
def commitDefault : CommitResult :=
  { adjustments := [], totalItems := 0, positiveVariances := 0
    negativeVariances := 0, totalAdjustments := 0 }

/-- A store with one variant, one location and a balance of 10 at average cost 2
(used to exercise the moving-average rule). -/
def w2db : DB :=
  { products := [], colors := [], sizes := [], productColors := []
    variants := [⟨1, 1, 1⟩], locations := [1]
    balances := [⟨1, 1, 10, 2⟩], movements := [], opnames := [], opnameItems := []
    nextProductId := 1, nextColorId := 1, nextSizeId := 1, nextPcId := 2
    nextVariantId := 2, nextMovementId := 1, nextOpnameId := 1
    allowNegative := false }

/-- A costed IN of 10 pieces at unit cost 4 against w2db. -/
def w2p : MovePayload :=
  { variantId := 1, locationId := 1, movementType := .IN, reasonCode := "OVERPROD_IN"
    qty := 10, unitCost := some 4 }

/-- An uncosted OUT of 4 pieces against w2db. -/
def w2pOut : MovePayload :=
  { variantId := 1, locationId := 1, movementType := .OUT, reasonCode := "SALES_OUT"
    qty := 4 }

/-- A store holding 5 pieces at (1, 1) with negative stock disabled. -/
def w3db : DB :=
  { products := [], colors := [], sizes := [], productColors := []
    variants := [⟨1, 1, 1⟩], locations := [1]
    balances := [⟨1, 1, 5, 0⟩], movements := [], opnames := [], opnameItems := []
    nextProductId := 1, nextColorId := 1, nextSizeId := 1, nextPcId := 2
    nextVariantId := 2, nextMovementId := 1, nextOpnameId := 1
    allowNegative := false }

/-- The same store with negative stock enabled. -/
def w3dbNeg : DB := { w3db with allowNegative := true }

/-- An OUT request for 9 pieces, exceeding the 5 on hand in w3db. -/
def w3p : MovePayload :=
  { variantId := 1, locationId := 1, movementType := .OUT, reasonCode := "SALES_OUT"
    qty := 9 }

/-- A store with 10 pieces at location 1 and 0 at location 2. -/
def w4db : DB :=
  { products := [], colors := [], sizes := [], productColors := []
    variants := [⟨1, 1, 1⟩], locations := [1, 2]
    balances := [⟨1, 1, 10, 0⟩, ⟨1, 2, 0, 0⟩], movements := [], opnames := []
    opnameItems := []
    nextProductId := 1, nextColorId := 1, nextSizeId := 1, nextPcId := 2
    nextVariantId := 2, nextMovementId := 1, nextOpnameId := 1
    allowNegative := false }

/-- A transfer of 4 pieces from location 1 to location 2. -/
def w4t : TransferReq :=
  { variantId := 1, fromLocationId := 1, toLocationId := 2, qty := 4
    refCode := some "TRF-1", pic := some "staff", createdBy := some "admin" }

/-- The same-location transfer rejected by the orchestrator. -/
def w4tSame : TransferReq :=
  { variantId := 1, fromLocationId := 1, toLocationId := 1, qty := 4
    refCode := some "TRF-2" }

/-- The opname example of the specification: an ACTIVE session over items
(system 10, counted 7), (system 5, counted 5), (system 0, counted 3), with the
balances equal to the snapshotted system quantities. -/
def opnameExampleDB : DB :=
  { products := [], colors := [], sizes := [], productColors := []
    variants := [⟨1, 1, 1⟩, ⟨2, 1, 2⟩, ⟨3, 1, 3⟩], locations := [1]
    balances := [⟨1, 1, 10, 0⟩, ⟨2, 1, 5, 0⟩, ⟨3, 1, 0, 0⟩]
    movements := []
    opnames := [{ id := 1, code := "OP-1", locationId := none, status := .ACTIVE
                  createdBy := "admin" }]
    opnameItems :=
      [ { opnameId := 1, variantId := 1, locationId := 1, systemQty := 10
          countedQty := some 7, note := none, countedBy := some "staff" },
        { opnameId := 1, variantId := 2, locationId := 1, systemQty := 5
          countedQty := some 5, note := none, countedBy := some "staff" },
        { opnameId := 1, variantId := 3, locationId := 1, systemQty := 0
          countedQty := some 3, note := none, countedBy := some "staff" } ]
    nextProductId := 1, nextColorId := 1, nextSizeId := 1, nextPcId := 2
    nextVariantId := 4, nextMovementId := 1, nextOpnameId := 2
    allowNegative := false }

/-- An ACTIVE session whose two counted items both have positive variance
(+3 and +2), so commit books two IN adjustments. -/
def w10db : DB :=
  { opnameExampleDB with
    balances := [⟨1, 1, 0, 0⟩, ⟨2, 1, 1, 0⟩]
    variants := [⟨1, 1, 1⟩, ⟨2, 1, 2⟩]
    opnameItems :=
      [ ⟨1, 1, 1, 0, some 3, none, some "staff"⟩,
        ⟨1, 2, 1, 1, some 3, none, some "staff"⟩ ] }

/-- A store whose only session is already COMPLETED. -/
def w6db : DB :=
  { opnameExampleDB with
    opnames := [{ id := 1, code := "OP-1", locationId := none, status := .COMPLETED
                  createdBy := "admin" }] }

/-- A reachable store: one imported variant and two IN movements of 5 and 7
pieces at location 1 (built by replaying requests from the fresh store). -/
def c7db : DB :=
  run (initDB false)
    [ .importVariant "Sweater" "Black" "M",
      .move { variantId := 1, locationId := 1, movementType := .IN
              reasonCode := "OVERPROD_IN", qty := 5 },
      .move { variantId := 1, locationId := 1, movementType := .IN
              reasonCode := "RETURN_IN", qty := 7 } ]

/-- A store with a variant but no balance row at all for (1, 1). -/
def w9db : DB :=
  { products := [], colors := [], sizes := [], productColors := []
    variants := [⟨1, 1, 1⟩], locations := [1]
    balances := [], movements := [], opnames := [], opnameItems := []
    nextProductId := 1, nextColorId := 1, nextSizeId := 1, nextPcId := 2
    nextVariantId := 2, nextMovementId := 1, nextOpnameId := 1
    allowNegative := false }

/-- The same rowless store with negative stock enabled. -/
def w9dbNeg : DB := { w9db with allowNegative := true }

/-- An OUT request for 3 pieces at the rowless pair of w9db. -/
def w9p : MovePayload :=
  { variantId := 1, locationId := 1, movementType := .OUT, reasonCode := "GIFT_OUT"
    qty := 3 }

theorem find?_map_of_key_fixed {α : Type} {key : α → Bool} {f : α → α}
    (hk : ∀ r, key (f r) = key r) (l : List α) :
    List.find? key (l.map f) = (List.find? key l).map f := by
  induction l with
  | nil => simp
  | cons a t ih =>
      by_cases h : key a
      · rw [List.map_cons, List.find?_cons_of_pos _ (by rw [hk]; exact h),
          List.find?_cons_of_pos _ h]
        rfl
      · rw [List.map_cons, List.find?_cons_of_neg _ (by rw [hk]; simpa using h),
          List.find?_cons_of_neg _ (by simpa using h), ih]

theorem cachedQty_update_self (s : DB) (v l : Nat) (mt : MType) (q : Int)
    (uc : Option Rat) :
    cachedQty (updateStockBalance s v l mt q uc) v l = cachedQty s v l + signedOf mt q := by
  unfold cachedQty updateStockBalance findBalance
  cases hf : s.balances.find? (fun r => r.variantId == v && r.locationId == l) with
  | none =>
      simp only [List.find?_append, hf, Option.none_or]
      rw [List.find?_cons_of_pos _ (by simp)]
      cases mt <;> simp [signedOf] <;> omega
  | some r =>
      rw [find?_map_of_key_fixed (by intro x; split <;> simp_all) s.balances, hf]
      simp only [Option.map_some']
      have hkey : (r.variantId == v && r.locationId == l) = true := by
        simpa using List.find?_some hf
      rw [if_pos hkey]
      cases mt <;> simp [signedOf] <;> omega

theorem cachedQty_update_other (s : DB) (v l : Nat) (mt : MType) (q : Int)
    (uc : Option Rat) (v' l' : Nat) (h : ¬(v' = v ∧ l' = l)) :
    cachedQty (updateStockBalance s v l mt q uc) v' l' = cachedQty s v' l' := by
  unfold cachedQty updateStockBalance findBalance
  cases hf : s.balances.find? (fun r => r.variantId == v && r.locationId == l) with
  | none =>
      simp only [List.find?_append]
      rw [List.find?_cons_of_neg _ (by
          simp only [Bool.and_eq_true, beq_iff_eq, not_and]
          intro hv hl
          exact absurd ⟨hv.symm, hl.symm⟩ h),
        List.find?_nil, Option.or_none]
  | some r =>
      rw [find?_map_of_key_fixed (by intro x; split <;> simp_all) s.balances]
      cases hf' : s.balances.find? (fun r => r.variantId == v' && r.locationId == l') with
      | none => simp
      | some r' =>
          have hkey' : r'.variantId = v' ∧ r'.locationId = l' := by
            simpa using List.find?_some hf'
          simp only [Option.map_some']
          rw [if_neg (by
            simp only [Bool.and_eq_true, beq_iff_eq, not_and]
            intro hv hl
            exact absurd ⟨hkey'.1.symm.trans hv, hkey'.2.symm.trans hl⟩ h)]

theorem avgCost_update_out (s : DB) (v l : Nat) (q : Int) (uc : Option Rat) :
    avgCostAt (updateStockBalance s v l .OUT q uc) v l = avgCostAt s v l := by
  unfold avgCostAt updateStockBalance findBalance
  cases hf : s.balances.find? (fun r => r.variantId == v && r.locationId == l) with
  | none =>
      simp only [List.find?_append, hf, Option.none_or]
      rw [List.find?_cons_of_pos _ (by simp)]
  | some r =>
      rw [find?_map_of_key_fixed (by intro x; split <;> simp_all) s.balances, hf]
      simp only [Option.map_some']
      have hkey : (r.variantId == v && r.locationId == l) = true := by
        simpa using List.find?_some hf
      rw [if_pos hkey]

theorem avgCost_update_in_pos (s : DB) (v l : Nat) (q : Int) (c : Rat) (hc : 0 < c) :
    avgCostAt (updateStockBalance s v l .IN q (some c)) v l =
      ((cachedQty s v l : Rat) * avgCostAt s v l + (q : Rat) * c) /
        ((cachedQty s v l + q : Int) : Rat) := by
  unfold avgCostAt cachedQty updateStockBalance findBalance
  cases hf : s.balances.find? (fun r => r.variantId == v && r.locationId == l) with
  | none =>
      simp only [List.find?_append, hf, Option.none_or]
      rw [List.find?_cons_of_pos _ (by simp)]
      simp [hc]
  | some r =>
      rw [find?_map_of_key_fixed (by intro x; split <;> simp_all) s.balances, hf]
      simp only [Option.map_some']
      have hkey : (r.variantId == v && r.locationId == l) = true := by
        simpa using List.find?_some hf
      rw [if_pos hkey]
      simp [hc]

theorem updateStockBalance_frame (s : DB) (v l : Nat) (mt : MType) (q : Int)
    (uc : Option Rat) :
    (updateStockBalance s v l mt q uc).movements = s.movements ∧
    (updateStockBalance s v l mt q uc).variants = s.variants ∧
    (updateStockBalance s v l mt q uc).locations = s.locations ∧
    (updateStockBalance s v l mt q uc).opnames = s.opnames ∧
    (updateStockBalance s v l mt q uc).opnameItems = s.opnameItems ∧
    (updateStockBalance s v l mt q uc).nextVariantId = s.nextVariantId ∧
    (updateStockBalance s v l mt q uc).nextMovementId = s.nextMovementId ∧
    (updateStockBalance s v l mt q uc).allowNegative = s.allowNegative := by
  unfold updateStockBalance
  cases findBalance s v l <;> simp

theorem updateStockBalance_balances_variantIds (s : DB) (v l : Nat) (mt : MType)
    (q : Int) (uc : Option Rat) :
    ∀ b ∈ (updateStockBalance s v l mt q uc).balances,
      b.variantId = v ∨ ∃ b₀ ∈ s.balances, b.variantId = b₀.variantId := by
  unfold updateStockBalance
  cases findBalance s v l with
  | none =>
      intro b hb
      simp only [List.mem_append, List.mem_singleton] at hb
      rcases hb with hb | hb
      · exact .inr ⟨b, hb, rfl⟩
      · subst hb; exact .inl rfl
  | some r =>
      intro b hb
      simp only [List.mem_map] at hb
      obtain ⟨b₀, hb₀, hf⟩ := hb
      refine .inr ⟨b₀, hb₀, ?_⟩
      subst hf
      split <;> rfl

theorem sumFor_append (ms ns : List Movement) (v l : Nat) :
    sumFor (ms ++ ns) v l = sumFor ms v l + sumFor ns v l := by
  simp [sumFor, List.filter_append]

theorem sumFor_single (m : Movement) (v l : Nat) :
    sumFor [m] v l = if m.variantId = v ∧ m.locationId = l then signedQty m else 0 := by
  by_cases h : m.variantId = v ∧ m.locationId = l
  · rw [if_pos h]
    simp [sumFor, List.filter, h.1, h.2]
  · rw [if_neg h]
    have : (m.variantId == v && m.locationId == l) = false := by
      simp only [Bool.and_eq_false_iff, beq_eq_false_iff_ne, ne_eq]
      by_cases hv : m.variantId = v
      · right; intro hl; exact h ⟨hv, hl⟩
      · left; exact hv
    simp [sumFor, List.filter, this]

theorem sumFor_zero_of_absent (ms : List Movement) (v l : Nat)
    (h : ∀ m ∈ ms, m.variantId ≠ v) : sumFor ms v l = 0 := by
  have : ms.filter (fun m => m.variantId == v && m.locationId == l) = [] := by
    rw [List.filter_eq_nil_iff]
    intro m hm
    simp only [Bool.and_eq_true, beq_iff_eq, not_and]
    intro hv
    exact absurd hv (h m hm)
  simp [sumFor, this]

theorem createMovement_ok_iff {s : DB} {p : MovePayload} {m : Movement} {s' : DB} :
    createMovement s p = .ok (m, s') ↔
      ¬(p.variantId = 0 ∨ p.locationId = 0 ∨ p.reasonCode = "" ∨ p.qty = 0) ∧
      ¬p.qty ≤ 0 ∧
      p.reasonCode ∈ validReasons p.movementType ∧
      ¬(p.movementType = .OUT ∧ s.allowNegative = false ∧
          cachedQty s p.variantId p.locationId < p.qty) ∧
      (s.variants.any (fun r => r.id == p.variantId) ∧ s.locations.contains p.locationId) ∧
      m = mkMovement s p ∧
      s' = updateStockBalance (advanceLedger s (mkMovement s p)) p.variantId p.locationId
            p.movementType p.qty p.unitCost := by
  unfold createMovement
  split_ifs with h1 h2 h3 h4 h5 <;>
    first
      | (rw [Except.ok.injEq, Prod.mk.injEq]
         constructor
         · rintro ⟨hm, hs⟩
           exact ⟨h1, h2, h3, h4, h5, hm.symm, hs.symm⟩
         · rintro ⟨_, _, _, _, _, hm, hs⟩
           exact ⟨hm.symm, hs.symm⟩)
      | exact iff_of_false (by simp) (by tauto)

theorem signedQty_eq (m : Movement) : signedQty m = signedOf m.movementType m.qty := by
  cases h : m.movementType <;> simp [signedQty, signedOf, h]

theorem createMovement_ok_fields {s : DB} {p : MovePayload} {m : Movement} {s' : DB}
    (h : createMovement s p = .ok (m, s')) :
    m.variantId = p.variantId ∧ m.locationId = p.locationId ∧
    m.movementType = p.movementType ∧ m.reasonCode = p.reasonCode ∧ m.qty = p.qty ∧
    m.unitCost = p.unitCost ∧ m.refTable = p.refTable ∧ m.refId = p.refId ∧
    m.refCode = p.refCode := by
  obtain ⟨-, -, -, -, -, hm, -⟩ := createMovement_ok_iff.mp h
  subst hm
  exact ⟨rfl, rfl, rfl, rfl, rfl, rfl, rfl, rfl, rfl⟩

theorem createMovement_ok_movements {s : DB} {p : MovePayload} {m : Movement} {s' : DB}
    (h : createMovement s p = .ok (m, s')) :
    s'.movements = s.movements ++ [m] := by
  obtain ⟨-, -, -, -, -, hm, hs⟩ := createMovement_ok_iff.mp h
  subst hm hs
  rw [(updateStockBalance_frame _ _ _ _ _ _).1]
  rfl

theorem createMovement_ok_frame {s : DB} {p : MovePayload} {m : Movement} {s' : DB}
    (h : createMovement s p = .ok (m, s')) :
    s'.variants = s.variants ∧ s'.locations = s.locations ∧ s'.opnames = s.opnames ∧
    s'.opnameItems = s.opnameItems ∧ s'.nextVariantId = s.nextVariantId ∧
    s'.allowNegative = s.allowNegative := by
  obtain ⟨-, -, -, -, -, -, hs⟩ := createMovement_ok_iff.mp h
  subst hs
  obtain ⟨-, h2, h3, h4, h5, h6, -, h8⟩ := updateStockBalance_frame
    (advanceLedger s (mkMovement s p)) p.variantId p.locationId p.movementType p.qty
    p.unitCost
  exact ⟨h2, h3, h4, h5, h6, h8⟩

theorem createMovement_ok_qty_pos {s : DB} {p : MovePayload} {m : Movement} {s' : DB}
    (h : createMovement s p = .ok (m, s')) : 0 < p.qty := by
  obtain ⟨-, h2, -⟩ := createMovement_ok_iff.mp h
  omega

theorem createMovement_ok_cached {s : DB} {p : MovePayload} {m : Movement} {s' : DB}
    (h : createMovement s p = .ok (m, s')) (v l : Nat) :
    cachedQty s' v l = cachedQty s v l +
      (if p.variantId = v ∧ p.locationId = l then signedOf p.movementType p.qty else 0) := by
  obtain ⟨-, -, -, -, -, -, hs⟩ := createMovement_ok_iff.mp h
  subst hs
  by_cases hvl : p.variantId = v ∧ p.locationId = l
  · obtain ⟨hv, hl⟩ := hvl
    subst hv hl
    rw [if_pos ⟨rfl, rfl⟩, cachedQty_update_self]
    rfl
  · rw [if_neg hvl, add_zero,
      cachedQty_update_other _ _ _ _ _ _ _ _
        (fun hc => hvl ⟨hc.1.symm, hc.2.symm⟩)]
    rfl

theorem createMovement_ok_ledger {s : DB} {p : MovePayload} {m : Movement} {s' : DB}
    (h : createMovement s p = .ok (m, s')) (v l : Nat) :
    ledgerQty s' v l = ledgerQty s v l +
      (if p.variantId = v ∧ p.locationId = l then signedOf p.movementType p.qty else 0) := by
  obtain ⟨hv, hl, hmt, -, hq, -⟩ := createMovement_ok_fields h
  unfold ledgerQty
  rw [createMovement_ok_movements h, sumFor_append, sumFor_single, signedQty_eq,
    hv, hl, hmt, hq]

theorem createMovement_preserves_inv {s : DB} {p : MovePayload} {m : Movement} {s' : DB}
    (hInv : LedgerBalanced s) (h : createMovement s p = .ok (m, s')) :
    LedgerBalanced s' := by
  intro v l
  rw [createMovement_ok_cached h, createMovement_ok_ledger h, hInv v l]

theorem createMovement_preserves_wf {s : DB} {p : MovePayload} {m : Movement} {s' : DB}
    (hwf : StoreWF s) (h : createMovement s p = .ok (m, s')) : StoreWF s' := by
  obtain ⟨hvar, hloc, hop, hopi, hnv, hneg⟩ := createMovement_ok_frame h
  obtain ⟨hw1, hw2, hw3⟩ := hwf
  obtain ⟨-, -, -, -, ⟨hfk, -⟩, hm, hs⟩ := createMovement_ok_iff.mp h
  refine ⟨?_, ?_, ?_⟩
  · rw [createMovement_ok_movements h, hvar]
    intro m' hm'
    rcases List.mem_append.mp hm' with hold | hnew
    · exact hw1 m' hold
    · rw [List.mem_singleton.mp hnew, hm]
      exact hfk
  · rw [hvar, hnv]
    exact hw2
  · rw [hvar]
    subst hs
    intro b hb
    have hb' := updateStockBalance_balances_variantIds
      (advanceLedger s (mkMovement s p)) p.variantId p.locationId p.movementType p.qty
      p.unitCost b hb
    rcases hb' with hv | ⟨b₀, hb₀, hbv⟩
    · rw [hv]; exact hfk
    · rw [hbv]; exact hw3 b₀ hb₀

theorem transfer_ok_elim {s : DB} {t : TransferReq} {outM inM : Movement} {s' : DB}
    (h : transfer s t = .ok (outM, inM, s')) :
    t.fromLocationId ≠ t.toLocationId ∧
    ∃ s1, createMovement s (transferOutPayload t) = .ok (outM, s1) ∧
          createMovement s1 (transferInPayload t) = .ok (inM, s') := by
  by_cases hft : t.fromLocationId = t.toLocationId
  · rw [transfer, if_pos hft] at h
    cases h
  · rw [transfer, if_neg hft] at h
    refine ⟨hft, ?_⟩
    cases h1 : createMovement s (transferOutPayload t) with
    | error e => rw [h1] at h; cases h
    | ok pr =>
        obtain ⟨m1, s1⟩ := pr
        rw [h1] at h
        dsimp only at h
        cases h2 : createMovement s1 (transferInPayload t) with
        | error e => rw [h2] at h; cases h
        | ok pr2 =>
            obtain ⟨m2, s2⟩ := pr2
            rw [h2] at h
            dsimp only at h
            simp only [Except.ok.injEq, Prod.mk.injEq] at h
            obtain ⟨hm1, hm2, hs2⟩ := h
            subst hm1 hm2 hs2
            exact ⟨s1, rfl, h2⟩

theorem transfer_same_error {s : DB} {t : TransferReq}
    (h : t.fromLocationId = t.toLocationId) :
    transfer s t = .error (.invalidArgument
      "Source and destination locations cannot be the same") := by
  rw [transfer, if_pos h]

theorem transfer_preserves_inv {s : DB} {t : TransferReq} {outM inM : Movement} {s' : DB}
    (hInv : LedgerBalanced s) (h : transfer s t = .ok (outM, inM, s')) :
    LedgerBalanced s' := by
  obtain ⟨-, s1, h1, h2⟩ := transfer_ok_elim h
  exact createMovement_preserves_inv (createMovement_preserves_inv hInv h1) h2

theorem transfer_preserves_wf {s : DB} {t : TransferReq} {outM inM : Movement} {s' : DB}
    (hwf : StoreWF s) (h : transfer s t = .ok (outM, inM, s')) :
    StoreWF s' := by
  obtain ⟨-, s1, h1, h2⟩ := transfer_ok_elim h
  exact createMovement_preserves_wf (createMovement_preserves_wf hwf h1) h2

theorem sameCore_refl (s : DB) : SameCore s s :=
  ⟨rfl, rfl, rfl, rfl, rfl, rfl, rfl, rfl, rfl⟩

theorem sameCore_trans {a b c : DB} (h1 : SameCore a b) (h2 : SameCore b c) :
    SameCore a c := by
  obtain ⟨x1, x2, x3, x4, x5, x6, x7, x8, x9⟩ := h1
  obtain ⟨y1, y2, y3, y4, y5, y6, y7, y8, y9⟩ := h2
  exact ⟨y1.trans x1, y2.trans x2, y3.trans x3, y4.trans x4, y5.trans x5,
    y6.trans x6, y7.trans x7, y8.trans x8, y9.trans x9⟩

theorem cachedQty_congr {s s' : DB} (h : s'.balances = s.balances) (v l : Nat) :
    cachedQty s' v l = cachedQty s v l := by
  unfold cachedQty findBalance
  rw [h]

theorem ledgerQty_congr {s s' : DB} (h : s'.movements = s.movements) (v l : Nat) :
    ledgerQty s' v l = ledgerQty s v l := by
  unfold ledgerQty
  rw [h]

theorem inv_of_sameCore {s s' : DB} (h : SameCore s s') (hInv : LedgerBalanced s) :
    LedgerBalanced s' := by
  intro v l
  rw [cachedQty_congr h.2.2.1, ledgerQty_congr h.2.2.2.1]
  exact hInv v l

theorem wf_of_sameCore {s s' : DB} (h : SameCore s s') (hwf : StoreWF s) :
    StoreWF s' := by
  obtain ⟨hv, -, hb, hm, -, -, hn, -, -⟩ := h
  obtain ⟨w1, w2, w3⟩ := hwf
  refine ⟨?_, ?_, ?_⟩
  · rw [hm, hv]; exact w1
  · rw [hv, hn]; exact w2
  · rw [hb, hv]; exact w3

theorem sameCore_getOrCreateProduct (s : DB) (n : String) :
    SameCore s (getOrCreateProduct s n).2 := by
  unfold getOrCreateProduct
  cases s.products.find? (fun r => r.name == n) <;>
    exact ⟨rfl, rfl, rfl, rfl, rfl, rfl, rfl, rfl, rfl⟩

theorem sameCore_getOrCreateColor (s : DB) (n : String) :
    SameCore s (getOrCreateColor s n).2 := by
  unfold getOrCreateColor
  cases s.colors.find? (fun r => r.name == n) <;>
    exact ⟨rfl, rfl, rfl, rfl, rfl, rfl, rfl, rfl, rfl⟩

theorem sameCore_getOrCreateSize (s : DB) (n : String) :
    SameCore s (getOrCreateSize s n).2 := by
  unfold getOrCreateSize
  cases s.sizes.find? (fun r => r.name == n) <;>
    exact ⟨rfl, rfl, rfl, rfl, rfl, rfl, rfl, rfl, rfl⟩

theorem sameCore_getOrCreateProductColor {s : DB} {pid cid pcId : Nat} {s' : DB}
    (h : getOrCreateProductColor s pid cid = .ok (pcId, s')) : SameCore s s' := by
  unfold getOrCreateProductColor at h
  cases hf : s.productColors.find?
      (fun r => r.productId == pid && r.colorId == cid) with
  | some r =>
      rw [hf] at h
      dsimp only at h
      simp only [Except.ok.injEq, Prod.mk.injEq] at h
      rw [← h.2]
      exact sameCore_refl s
  | none =>
      rw [hf] at h
      dsimp only at h
      split_ifs at h with hfk
      simp only [Except.ok.injEq, Prod.mk.injEq] at h
      rw [← h.2]
      exact ⟨rfl, rfl, rfl, rfl, rfl, rfl, rfl, rfl, rfl⟩

theorem insertZeroBalances_ok {vid : Nat} : ∀ (ls : List Nat) (s s' : DB),
    insertZeroBalances vid ls s = .ok s' →
    (∃ rows, s'.balances = s.balances ++ rows ∧
        ∀ r ∈ rows, r.variantId = vid ∧ r.qtyOnHand = 0) ∧
    s'.variants = s.variants ∧ s'.locations = s.locations ∧
    s'.movements = s.movements ∧ s'.opnames = s.opnames ∧
    s'.opnameItems = s.opnameItems ∧ s'.nextVariantId = s.nextVariantId ∧
    s'.nextMovementId = s.nextMovementId ∧ s'.allowNegative = s.allowNegative := by
  intro ls
  induction ls with
  | nil =>
      intro s s' h
      unfold insertZeroBalances at h
      simp only [Except.ok.injEq] at h
      subst h
      exact ⟨⟨[], by simp, by simp⟩, rfl, rfl, rfl, rfl, rfl, rfl, rfl, rfl⟩
  | cons l ls ih =>
      intro s s' h
      unfold insertZeroBalances at h
      split_ifs at h with hdup
      obtain ⟨⟨rows, hrows, hall⟩, h2, h3, h4, h5, h6, h7, h8, h9⟩ := ih _ _ h
      refine ⟨⟨⟨vid, l, 0, 0⟩ :: rows, ?_, ?_⟩, h2, h3, h4, h5, h6, h7, h8, h9⟩
      · rw [hrows]
        simp
      · intro r hr
        rcases List.mem_cons.mp hr with hr | hr
        · subst hr; exact ⟨rfl, rfl⟩
        · exact hall r hr

theorem insertVariantRow_ok {s : DB} {pcId szId vid : Nat} {s' : DB}
    (h : insertVariantRow s pcId szId = .ok (vid, s')) :
    vid = s.nextVariantId ∧
    s'.variants = s.variants ++ [⟨vid, pcId, szId⟩] ∧
    s'.nextVariantId = vid + 1 ∧
    (∃ rows, s'.balances = s.balances ++ rows ∧
        ∀ r ∈ rows, r.variantId = vid ∧ r.qtyOnHand = 0) ∧
    s'.locations = s.locations ∧ s'.movements = s.movements ∧
    s'.opnames = s.opnames ∧ s'.opnameItems = s.opnameItems ∧
    s'.nextMovementId = s.nextMovementId ∧ s'.allowNegative = s.allowNegative := by
  unfold insertVariantRow at h
  split_ifs at h with hdup
  dsimp only at h
  cases hz : insertZeroBalances s.nextVariantId s.locations
      { s with variants := s.variants ++ [⟨s.nextVariantId, pcId, szId⟩]
               nextVariantId := s.nextVariantId + 1 } with
  | error e => rw [hz] at h; cases h
  | ok s2 =>
      rw [hz] at h
      dsimp only at h
      simp only [Except.ok.injEq, Prod.mk.injEq] at h
      obtain ⟨hvid, hs⟩ := h
      subst hvid hs
      obtain ⟨⟨rows, hrows, hall⟩, h2, h3, h4, h5, h6, h7, h8, h9⟩ :=
        insertZeroBalances_ok _ _ _ hz
      exact ⟨rfl, by rw [h2], by rw [h7], ⟨rows, by rw [hrows], hall⟩, by rw [h3],
        by rw [h4], by rw [h5], by rw [h6], by rw [h8], by rw [h9]⟩

theorem insertVariantRow_preserves {s : DB} {pcId szId vid : Nat} {s' : DB}
    (hInv : LedgerBalanced s) (hwf : StoreWF s)
    (h : insertVariantRow s pcId szId = .ok (vid, s')) :
    LedgerBalanced s' ∧ StoreWF s' := by
  obtain ⟨hvid, hvars, hnext, ⟨rows, hbal, hall⟩, hloc, hmov, hop, hopi, hnm, hneg⟩ :=
    insertVariantRow_ok h
  obtain ⟨w1, w2, w3⟩ := hwf
  have hfresh : ∀ b ∈ s.balances, b.variantId ≠ vid := by
    intro b hb hbv
    have := w3 b hb
    rw [List.any_eq_true] at this
    obtain ⟨r, hr, hrid⟩ := this
    rw [beq_iff_eq] at hrid
    have := w2 r hr
    omega
  have hmfresh : ∀ m ∈ s.movements, m.variantId ≠ vid := by
    intro m hm hmv
    have := w1 m hm
    rw [List.any_eq_true] at this
    obtain ⟨r, hr, hrid⟩ := this
    rw [beq_iff_eq] at hrid
    have := w2 r hr
    omega
  constructor
  · intro v l
    have hled : ledgerQty s' v l = ledgerQty s v l := ledgerQty_congr hmov v l
    by_cases hv : v = vid
    · subst hv
      have hfind : ∀ ms : List BalanceRow, (∀ b ∈ ms, b.variantId ≠ v) →
          ms.find? (fun r => r.variantId == v && r.locationId == l) = none := by
        intro ms hms
        rw [List.find?_eq_none]
        intro b hb
        simp only [Bool.and_eq_true, beq_iff_eq, not_and]
        intro hbv
        exact absurd hbv (hms b hb)
      have hcache : cachedQty s' v l = 0 := by
        unfold cachedQty findBalance
        rw [hbal, List.find?_append, hfind s.balances hfresh, Option.none_or]
        cases hr : rows.find? (fun r => r.variantId == v && r.locationId == l) with
        | none => rfl
        | some r => exact (hall r (List.mem_of_find?_eq_some hr)).2
      rw [hcache, hled, ledgerQty, sumFor_zero_of_absent _ _ _ hmfresh]
    · have hcache : cachedQty s' v l = cachedQty s v l := by
        unfold cachedQty findBalance
        rw [hbal, List.find?_append]
        have : rows.find? (fun r => r.variantId == v && r.locationId == l) = none := by
          rw [List.find?_eq_none]
          intro b hb
          simp only [Bool.and_eq_true, beq_iff_eq, not_and]
          intro hbv
          exact absurd ((hall b hb).1 ▸ hbv).symm hv
        rw [this, Option.or_none]
      rw [hcache, hled]
      exact hInv v l
  · refine ⟨?_, ?_, ?_⟩
    · intro m hm
      rw [hmov] at hm
      rw [hvars, List.any_append, Bool.or_eq_true]
      exact .inl (w1 m hm)
    · intro r hr
      rw [hvars] at hr
      rw [hnext]
      rcases List.mem_append.mp hr with hr | hr
      · have := w2 r hr
        omega
      · rw [List.mem_singleton.mp hr]
        show vid < vid + 1
        omega
    · intro b hb
      rw [hbal] at hb
      rw [hvars, List.any_append, Bool.or_eq_true]
      rcases List.mem_append.mp hb with hb | hb
      · exact .inl (w3 b hb)
      · refine .inr ?_
        rw [List.any_eq_true]
        exact ⟨⟨vid, pcId, szId⟩, List.mem_singleton.mpr rfl,
          by rw [beq_iff_eq]; exact (hall b hb).1.symm⟩

theorem createVariant_preserves {s : DB} {pid cid szId vid : Nat} {s' : DB}
    (hInv : LedgerBalanced s) (hwf : StoreWF s)
    (h : createVariant s pid cid szId = .ok (vid, s')) :
    LedgerBalanced s' ∧ StoreWF s' := by
  unfold createVariant at h
  cases hpc : getOrCreateProductColor s pid cid with
  | error e => rw [hpc] at h; cases h
  | ok pr =>
      obtain ⟨pcId, s1⟩ := pr
      rw [hpc] at h
      dsimp only at h
      have hsc := sameCore_getOrCreateProductColor hpc
      exact insertVariantRow_preserves (inv_of_sameCore hsc hInv)
        (wf_of_sameCore hsc hwf) h

theorem createVariantFromNames_preserves {s : DB} {pn cn sn : String} {vid : Nat}
    {b : Bool} {s' : DB} (hInv : LedgerBalanced s) (hwf : StoreWF s)
    (h : createVariantFromNames s pn cn sn = .ok (vid, b, s')) :
    LedgerBalanced s' ∧ StoreWF s' := by
  unfold createVariantFromNames at h
  dsimp only at h
  cases hpc : getOrCreateProductColor
      (getOrCreateSize (getOrCreateColor
        (getOrCreateProduct s ((productMapping pn).getD pn)).2 cn).2 sn).2
      (getOrCreateProduct s ((productMapping pn).getD pn)).1
      (getOrCreateColor (getOrCreateProduct s ((productMapping pn).getD pn)).2 cn).1 with
  | error e => rw [hpc] at h; cases h
  | ok pr =>
      obtain ⟨pcId, s4⟩ := pr
      rw [hpc] at h
      dsimp only at h
      cases hv : insertVariantRow s4 pcId
          (getOrCreateSize (getOrCreateColor
            (getOrCreateProduct s ((productMapping pn).getD pn)).2 cn).2 sn).1 with
      | error e => rw [hv] at h; cases h
      | ok pr2 =>
          obtain ⟨vid2, s5⟩ := pr2
          rw [hv] at h
          dsimp only at h
          simp only [Except.ok.injEq, Prod.mk.injEq] at h
          obtain ⟨-, -, hs⟩ := h
          subst hs
          have hsc : SameCore s s4 :=
            sameCore_trans
              (sameCore_trans
                (sameCore_trans (sameCore_getOrCreateProduct s _)
                  (sameCore_getOrCreateColor _ cn))
                (sameCore_getOrCreateSize _ sn))
              (sameCore_getOrCreateProductColor hpc)
          exact insertVariantRow_preserves (inv_of_sameCore hsc hInv)
            (wf_of_sameCore hsc hwf) hv

theorem resolveVariantIdByIds_preserves {s : DB} {pid cid szId vid : Nat} {s' : DB}
    (hInv : LedgerBalanced s) (hwf : StoreWF s)
    (h : resolveVariantIdByIds s pid cid szId = .ok (vid, s')) :
    LedgerBalanced s' ∧ StoreWF s' := by
  unfold resolveVariantIdByIds at h
  cases hl : lookupVariantByIds s pid cid szId with
  | some i =>
      rw [hl] at h
      simp only [Except.ok.injEq, Prod.mk.injEq] at h
      rw [← h.2]
      exact ⟨hInv, hwf⟩
  | none =>
      rw [hl] at h
      exact createVariant_preserves hInv hwf h

theorem resolveVariantId_preserves {s : DB} {pn cn sn : String} {vid : Nat} {b : Bool}
    {s' : DB} (hInv : LedgerBalanced s) (hwf : StoreWF s)
    (h : resolveVariantId s pn cn sn = .ok (vid, b, s')) :
    LedgerBalanced s' ∧ StoreWF s' := by
  unfold resolveVariantId at h
  cases hl : lookupVariantByNames s pn cn sn with
  | some i =>
      rw [hl] at h
      simp only [Except.ok.injEq, Prod.mk.injEq] at h
      rw [← h.2.2]
      exact ⟨hInv, hwf⟩
  | none =>
      rw [hl] at h
      exact createVariantFromNames_preserves hInv hwf h

theorem startOpname_ok_core {s : DB} {code : String} {loc : Option Nat} {cb : String}
    {sess : OpnameSession} {s' : DB} (h : startOpname s code loc cb = .ok (sess, s')) :
    s'.balances = s.balances ∧ s'.movements = s.movements ∧ s'.variants = s.variants ∧
    s'.nextVariantId = s.nextVariantId := by
  unfold startOpname at h
  split_ifs at h with hc hl
  simp only [Except.ok.injEq, Prod.mk.injEq] at h
  rw [← h.2]
  exact ⟨rfl, rfl, rfl, rfl⟩

theorem updateOpnameCount_ok_core {s : DB} {oid vid lid : Nat} {cq : Int} {cby : String}
    {note : Option String} {s' : DB}
    (h : updateOpnameCount s oid vid lid cq cby note = .ok s') :
    s'.balances = s.balances ∧ s'.movements = s.movements ∧ s'.variants = s.variants ∧
    s'.nextVariantId = s.nextVariantId := by
  unfold updateOpnameCount at h
  split_ifs at h with hc
  simp only [Except.ok.injEq] at h
  rw [← h]
  exact ⟨rfl, rfl, rfl, rfl⟩

theorem bookAdjustments_preserves {code : String} {oid : Nat} {cb : Option String} :
    ∀ (items : List OpnameItem) (s : DB) (ms : List Movement) (s' : DB),
    bookAdjustments code oid cb items s = .ok (ms, s') →
    LedgerBalanced s → StoreWF s → LedgerBalanced s' ∧ StoreWF s' := by
  intro items
  induction items with
  | nil =>
      intro s ms s' h hInv hwf
      unfold bookAdjustments at h
      simp only [Except.ok.injEq, Prod.mk.injEq] at h
      rw [← h.2]
      exact ⟨hInv, hwf⟩
  | cons it rest ih =>
      intro s ms s' h hInv hwf
      unfold bookAdjustments at h
      cases h1 : createMovement s (adjustmentPayload code oid cb it) with
      | error e => rw [h1] at h; cases h
      | ok pr =>
          obtain ⟨m, s1⟩ := pr
          rw [h1] at h
          dsimp only at h
          cases h2 : bookAdjustments code oid cb rest s1 with
          | error e => rw [h2] at h; cases h
          | ok pr2 =>
              obtain ⟨ms2, s2⟩ := pr2
              rw [h2] at h
              dsimp only at h
              simp only [Except.ok.injEq, Prod.mk.injEq] at h
              rw [← h.2]
              exact ih s1 ms2 s2 h2 (createMovement_preserves_inv hInv h1)
                (createMovement_preserves_wf hwf h1)

theorem bookAdjustments_ok_spec {code : String} {oid : Nat} {cb : Option String} :
    ∀ (items : List OpnameItem) (s : DB) (ms : List Movement) (s' : DB),
    bookAdjustments code oid cb items s = .ok (ms, s') →
    ms.length = items.length ∧
    ∀ k (hk : k < ms.length) (hk' : k < items.length),
      let m := ms.get ⟨k, hk⟩
      let it := items.get ⟨k, hk'⟩
      m.variantId = it.variantId ∧ m.locationId = it.locationId ∧
      m.movementType = (if 0 < it.varianceQty.getD 0 then MType.IN else MType.OUT) ∧
      m.reasonCode = (if 0 < it.varianceQty.getD 0 then "ADJUSTMENT_IN"
        else "ADJUSTMENT_OUT") ∧
      m.qty = |it.varianceQty.getD 0| ∧
      m.refTable = some "stock_opname" ∧ m.refId = some oid ∧ m.refCode = some code := by
  intro items
  induction items with
  | nil =>
      intro s ms s' h
      unfold bookAdjustments at h
      simp only [Except.ok.injEq, Prod.mk.injEq] at h
      rw [← h.1]
      exact ⟨rfl, by intro k hk; exact absurd hk (by simp)⟩
  | cons it rest ih =>
      intro s ms s' h
      unfold bookAdjustments at h
      cases h1 : createMovement s (adjustmentPayload code oid cb it) with
      | error e => rw [h1] at h; cases h
      | ok pr =>
          obtain ⟨m, s1⟩ := pr
          rw [h1] at h
          dsimp only at h
          cases h2 : bookAdjustments code oid cb rest s1 with
          | error e => rw [h2] at h; cases h
          | ok pr2 =>
              obtain ⟨ms2, s2⟩ := pr2
              rw [h2] at h
              dsimp only at h
              simp only [Except.ok.injEq, Prod.mk.injEq] at h
              obtain ⟨hms, -⟩ := h
              subst hms
              obtain ⟨hlen, hspec⟩ := ih s1 ms2 s2 h2
              obtain ⟨f1, f2, f3, f4, f5, f6, f7, f8, f9⟩ := createMovement_ok_fields h1
              refine ⟨by simp [hlen], ?_⟩
              intro k hk hk'
              cases k with
              | zero =>
                  exact ⟨f1, f2, f3, f4, f5, f7, f8, f9⟩
              | succ k =>
                  exact hspec k (by simpa using hk) (by simpa using hk')

theorem commitOpname_ok_elim {s : DB} {oid : Nat} {cb : Option String}
    {res : CommitResult} {s' : DB} (h : commitOpname s oid cb = .ok (res, s')) :
    ∃ sess adjs s1,
      s.opnames.find? (fun o => o.id == oid && o.status == OpStatus.ACTIVE) = some sess ∧
      bookAdjustments sess.code oid cb (eligibleItems s oid) s = .ok (adjs, s1) ∧
      res.adjustments = adjs ∧
      res.totalItems = (eligibleItems s oid).length ∧
      res.totalAdjustments = adjs.length ∧
      s'.balances = s1.balances ∧ s'.movements = s1.movements ∧
      s'.variants = s1.variants ∧ s'.nextVariantId = s1.nextVariantId ∧
      s'.opnames = s1.opnames.map (fun o =>
        if o.id == oid then { o with status := .COMPLETED } else o) := by
  unfold commitOpname at h
  cases hf : s.opnames.find? (fun o => o.id == oid && o.status == OpStatus.ACTIVE) with
  | none => rw [hf] at h; cases h
  | some sess =>
      rw [hf] at h
      dsimp only at h
      cases hb : bookAdjustments sess.code oid cb (eligibleItems s oid) s with
      | error e => rw [hb] at h; cases h
      | ok pr =>
          obtain ⟨adjs, s1⟩ := pr
          rw [hb] at h
          dsimp only at h
          simp only [Except.ok.injEq, Prod.mk.injEq] at h
          obtain ⟨hres, hs⟩ := h
          subst hs
          refine ⟨sess, adjs, s1, rfl, hb, ?_, ?_, ?_, rfl, rfl, rfl, rfl, rfl⟩
          · rw [← hres]
          · rw [← hres]
          · rw [← hres]

theorem commitOpname_not_active {s : DB} {oid : Nat} {cb : Option String}
    (h : ∀ o ∈ s.opnames, o.id = oid → o.status ≠ OpStatus.ACTIVE) :
    commitOpname s oid cb = .error (.invalidState "Opname not found or not active") := by
  unfold commitOpname
  rw [List.find?_eq_none.mpr ?hp]
  case hp =>
    intro o ho
    simp only [Bool.and_eq_true, beq_iff_eq, not_and]
    intro hid hst
    exact absurd hst (h o ho hid)

theorem inv_wf_of_core_eq {s s' : DB} (hb : s'.balances = s.balances)
    (hm : s'.movements = s.movements) (hv : s'.variants = s.variants)
    (hn : s'.nextVariantId = s.nextVariantId)
    (hInv : LedgerBalanced s) (hwf : StoreWF s) :
    LedgerBalanced s' ∧ StoreWF s' := by
  obtain ⟨w1, w2, w3⟩ := hwf
  refine ⟨?_, ?_, ?_, ?_⟩
  · intro v l
    rw [cachedQty_congr hb, ledgerQty_congr hm]
    exact hInv v l
  · rw [hm, hv]; exact w1
  · rw [hv, hn]; exact w2
  · rw [hb, hv]; exact w3

theorem commitOpname_preserves {s : DB} {oid : Nat} {cb : Option String}
    {res : CommitResult} {s' : DB} (hInv : LedgerBalanced s) (hwf : StoreWF s)
    (h : commitOpname s oid cb = .ok (res, s')) :
    LedgerBalanced s' ∧ StoreWF s' := by
  obtain ⟨sess, adjs, s1, -, hb, -, -, -, hbal, hmov, hvar, hnext, -⟩ :=
    commitOpname_ok_elim h
  obtain ⟨hInv1, hwf1⟩ := bookAdjustments_preserves _ _ _ _ hb hInv hwf
  exact inv_wf_of_core_eq hbal hmov hvar hnext hInv1 hwf1

theorem exceptMap_ok_elim {α β : Type} {f : α → β} {x : Except Err α} {b : β}
    (h : x.map f = .ok b) : ∃ a, x = .ok a ∧ f a = b := by
  cases x with
  | error e => cases h
  | ok a =>
      refine ⟨a, rfl, ?_⟩
      simpa [Except.map] using h

theorem step_preserves (s : DB) (o : Op) (hInv : LedgerBalanced s) (hwf : StoreWF s) :
    LedgerBalanced (step s o) ∧ StoreWF (step s o) := by
  unfold step
  cases ha : applyOp s o with
  | error e => exact ⟨hInv, hwf⟩
  | ok s' =>
      cases o with
      | move p =>
          unfold applyOp at ha
          obtain ⟨⟨m, s2⟩, hx, hf⟩ := exceptMap_ok_elim ha
          cases hf
          exact ⟨createMovement_preserves_inv hInv hx,
            createMovement_preserves_wf hwf hx⟩
      | xfer t =>
          unfold applyOp at ha
          obtain ⟨⟨m1, m2, s2⟩, hx, hf⟩ := exceptMap_ok_elim ha
          cases hf
          exact ⟨transfer_preserves_inv hInv hx, transfer_preserves_wf hwf hx⟩
      | newVariant pid cid szid =>
          unfold applyOp at ha
          obtain ⟨⟨vid, s2⟩, hx, hf⟩ := exceptMap_ok_elim ha
          cases hf
          exact resolveVariantIdByIds_preserves hInv hwf hx
      | importVariant pn cn sn =>
          unfold applyOp at ha
          obtain ⟨⟨vid, created, s2⟩, hx, hf⟩ := exceptMap_ok_elim ha
          cases hf
          exact resolveVariantId_preserves hInv hwf hx
      | opStart code loc cb =>
          unfold applyOp at ha
          obtain ⟨⟨sess, s2⟩, hx, hf⟩ := exceptMap_ok_elim ha
          cases hf
          obtain ⟨hb, hm, hv, hn⟩ := startOpname_ok_core hx
          exact inv_wf_of_core_eq hb hm hv hn hInv hwf
      | opCount oid vid lid cq cby note =>
          unfold applyOp at ha
          obtain ⟨hb, hm, hv, hn⟩ := updateOpnameCount_ok_core ha
          exact inv_wf_of_core_eq hb hm hv hn hInv hwf
      | opCommit oid cb =>
          unfold applyOp at ha
          obtain ⟨⟨res, s2⟩, hx, hf⟩ := exceptMap_ok_elim ha
          cases hf
          exact commitOpname_preserves hInv hwf hx

theorem run_preserves : ∀ (ops : List Op) (s : DB),
    LedgerBalanced s → StoreWF s → LedgerBalanced (run s ops) ∧ StoreWF (run s ops) := by
  intro ops
  induction ops with
  | nil => intro s hInv hwf; exact ⟨hInv, hwf⟩
  | cons o ops ih =>
      intro s hInv hwf
      obtain ⟨hInv', hwf'⟩ := step_preserves s o hInv hwf
      exact ih (step s o) hInv' hwf'

theorem initDB_balanced (a : Bool) : LedgerBalanced (initDB a) := by
  intro v l
  rfl

theorem initDB_wf (a : Bool) : StoreWF (initDB a) := by
  refine ⟨?_, ?_, ?_⟩ <;> intro x hx <;> cases hx

theorem createMovement_insufficient {s : DB} {p : MovePayload}
    (hout : p.movementType = .OUT) (hflag : s.allowNegative = false)
    (hlt : cachedQty s p.variantId p.locationId < p.qty)
    (hv : p.variantId ≠ 0) (hl : p.locationId ≠ 0) (hq : 0 < p.qty)
    (hr : p.reasonCode ∈ validReasons p.movementType) :
    createMovement s p =
      .error (.insufficientStock (cachedQty s p.variantId p.locationId) p.qty) := by
  have hrne : p.reasonCode ≠ "" := by
    rw [hout] at hr
    intro he
    rw [he] at hr
    exact absurd hr (by decide)
  unfold createMovement
  rw [if_neg (by push_neg; exact ⟨hv, hl, hrne, by omega⟩), if_neg (by omega),
    if_neg (not_not_intro hr), if_pos ⟨hout, hflag, hlt⟩]

theorem findBalance_update_out_insert {s : DB} {v l : Nat} {q : Int} {uc : Option Rat}
    (hf : findBalance s v l = none) :
    findBalance (updateStockBalance s v l .OUT q uc) v l = some ⟨v, l, -q, 0⟩ := by
  unfold updateStockBalance
  rw [hf]
  dsimp only
  unfold findBalance at hf ⊢
  rw [List.find?_append, hf, Option.none_or, List.find?_cons_of_pos _ (by simp)]
  norm_num

theorem step_move_of_error {s : DB} {p : MovePayload} {e : Err}
    (h : createMovement s p = .error e) : step s (.move p) = s := by
  unfold step applyOp
  dsimp only
  rw [h]
  rfl

theorem step_commit_of_error {s : DB} {oid : Nat} {cb : Option String} {e : Err}
    (h : commitOpname s oid cb = .error e) : step s (.opCommit oid cb) = s := by
  unfold step applyOp
  dsimp only
  rw [h]
  rfl

theorem withRunning_length (opening : Int) (ms : List Movement) :
    (withRunning opening ms).length = ms.length := by
  induction ms generalizing opening with
  | nil => rfl
  | cons m ms ih => simp [withRunning, ih]

theorem withRunning_spec : ∀ (ms : List Movement) (opening : Int) (k : Nat),
    k < ms.length →
    ((withRunning opening ms).getD k rowDefault).runningBalance =
      opening + (((withRunning opening ms).take (k + 1)).map
        StockCardRow.qtyChange).sum := by
  intro ms
  induction ms with
  | nil =>
      intro opening k hk
      exact absurd hk (by simp)
  | cons m ms ih =>
      intro opening k hk
      cases k with
      | zero => simp [withRunning]
      | succ k =>
          have hk' : k < ms.length := by simpa using hk
          have hrec := ih (opening + signedQty m) k hk'
          simp only [withRunning, List.getD_cons_succ, List.take_succ_cons,
            List.map_cons, List.sum_cons]
          rw [hrec]
          ring

theorem getStockCard_ok_elim {s : DB} {pid cid szid lid : Nat} {fd td : Option Nat}
    {lim : Nat} {card : StockCard}
    (h : getStockCard s pid cid szid lid fd td lim = .ok card) :
    lookupVariantByIds s pid cid szid = some card.variantId ∧
    card.openingQty = openingOf s card.variantId lid fd ∧
    card.currentQty = cachedQty s card.variantId lid ∧
    ∃ sliced, card.rows = withRunning card.openingQty sliced := by
  unfold getStockCard at h
  cases hv : lookupVariantByIds s pid cid szid with
  | none => rw [hv] at h; cases h
  | some vid =>
      rw [hv] at h
      dsimp only at h
      simp only [Except.ok.injEq] at h
      subst h
      refine ⟨rfl, rfl, rfl, ?_⟩
      exact ⟨_, rfl⟩

theorem getStockCard_error_elim {s : DB} {pid cid szid lid : Nat} {fd td : Option Nat}
    {lim : Nat} {e : Err} (h : getStockCard s pid cid szid lid fd td lim = .error e) :
    e = .notFound "Variant not found" := by
  unfold getStockCard at h
  cases hv : lookupVariantByIds s pid cid szid with
  | none =>
      rw [hv] at h
      simp only [Except.error.injEq] at h
      exact h.symm
  | some vid => rw [hv] at h; cases h

/-- Claim C1: for every (variant, location) pair, after any sequence of
successful operations replayed from the fresh store (movement creation,
transfers, opname workflow, variant creation and the CSV-import name
resolution; failed requests roll back and leave the state unchanged), the
cached balance `qty_on_hand` equals the sum of signed quantities (IN positive,
OUT negative) of all movements recorded for that pair, starting from zero. -/
theorem ledger_balance_invariant (allowNeg : Bool) (ops : List Op) (v l : Nat) :
    cachedQty (run (initDB allowNeg) ops) v l =
      ledgerQty (run (initDB allowNeg) ops) v l :=
  (run_preserves ops (initDB allowNeg) (initDB_balanced allowNeg)
    (initDB_wf allowNeg)).1 v l

/-- Claim C2: for every successful IN movement of quantity q with a supplied
unit cost c > 0, given prior balance quantity Q and average cost C, the new
moving-average cost equals (Q·C + q·c) / (Q + q); for every successful OUT
movement the average cost is unchanged. -/
theorem moving_average_cost_rule (s : DB) (p : MovePayload) (c : Rat)
    (m : Movement) (s' : DB) (hok : createMovement s p = .ok (m, s')) :
    (p.movementType = .IN → p.unitCost = some c → 0 < c →
      avgCostAt s' p.variantId p.locationId =
        ((cachedQty s p.variantId p.locationId : Rat) *
            avgCostAt s p.variantId p.locationId + (p.qty : Rat) * c) /
          ((cachedQty s p.variantId p.locationId + p.qty : Int) : Rat)) ∧
    (p.movementType = .OUT →
      avgCostAt s' p.variantId p.locationId = avgCostAt s p.variantId p.locationId) := by
  obtain ⟨-, -, -, -, -, -, hs⟩ := createMovement_ok_iff.mp hok
  subst hs
  constructor
  · intro hIN huc hpos
    rw [hIN, huc, avgCost_update_in_pos _ _ _ _ _ hpos]
    rfl
  · intro hOUT
    rw [hOUT, avgCost_update_out]
    rfl

/-- Witness for claim C2: on a balance of 10 pieces at average cost 2, an IN of
10 pieces at unit cost 4 > 0 yields average (10·2 + 10·4) / 20 = 3, and an OUT
of 4 pieces leaves the average at 2. -/
theorem moving_average_cost_rule_witness :
    avgCostAt ((createMovement w2db w2p).toOption.getD (mDefault, w2db)).2 1 1 = 3 ∧
    avgCostAt ((createMovement w2db w2pOut).toOption.getD (mDefault, w2db)).2 1 1 = 2 := by
  constructor
  · have hok : createMovement w2db w2p =
        .ok (((createMovement w2db w2p).toOption.getD (mDefault, w2db)).1,
          ((createMovement w2db w2p).toOption.getD (mDefault, w2db)).2) := rfl
    have h := (moving_average_cost_rule w2db w2p 4 _ _ hok).1 rfl rfl (by norm_num)
    have hval : ((cachedQty w2db w2p.variantId w2p.locationId : Rat) *
        avgCostAt w2db w2p.variantId w2p.locationId + (w2p.qty : Rat) * 4) /
        ((cachedQty w2db w2p.variantId w2p.locationId + w2p.qty : Int) : Rat) = 3 := by
      have h1 : cachedQty w2db w2p.variantId w2p.locationId = 10 := rfl
      have h2 : avgCostAt w2db w2p.variantId w2p.locationId = 2 := rfl
      have h3 : w2p.qty = 10 := rfl
      rw [h1, h2, h3]
      norm_num
    exact h.trans hval
  · have hok : createMovement w2db w2pOut =
        .ok (((createMovement w2db w2pOut).toOption.getD (mDefault, w2db)).1,
          ((createMovement w2db w2pOut).toOption.getD (mDefault, w2db)).2) := rfl
    have h := (moving_average_cost_rule w2db w2pOut 4 _ _ hok).2 rfl
    exact h.trans (by rfl)

/-- Claim C3: an OUT request exceeding the cached quantity fails with the
insufficient-stock error reporting available vs required and changes nothing
when the allow-negative flag is off, and succeeds driving the balance negative
when the flag is on. -/
theorem out_exceeding_stock_policy (s : DB) (p : MovePayload)
    (hout : p.movementType = .OUT)
    (hgt : cachedQty s p.variantId p.locationId < p.qty)
    (hv : p.variantId ≠ 0) (hl : p.locationId ≠ 0) (hq : 0 < p.qty)
    (hr : p.reasonCode ∈ validReasons p.movementType)
    (hfk : (s.variants.any fun r => r.id == p.variantId) = true)
    (hfk2 : s.locations.contains p.locationId = true) :
    (s.allowNegative = false →
      createMovement s p = .error (.insufficientStock
        (cachedQty s p.variantId p.locationId) p.qty) ∧
      step s (.move p) = s) ∧
    (s.allowNegative = true →
      ∃ m s', createMovement s p = .ok (m, s') ∧
        cachedQty s' p.variantId p.locationId =
          cachedQty s p.variantId p.locationId - p.qty ∧
        cachedQty s' p.variantId p.locationId < 0) := by
  have hrne : p.reasonCode ≠ "" := by
    rw [hout] at hr
    intro he
    rw [he] at hr
    exact absurd hr (by decide)
  constructor
  · intro hflag
    have he := createMovement_insufficient hout hflag hgt hv hl hq hr
    exact ⟨he, step_move_of_error he⟩
  · intro hflag
    have hok : createMovement s p = .ok (mkMovement s p,
        updateStockBalance (advanceLedger s (mkMovement s p)) p.variantId p.locationId
          p.movementType p.qty p.unitCost) := by
      apply createMovement_ok_iff.mpr
      refine ⟨?_, by omega, hr, ?_, ⟨hfk, hfk2⟩, rfl, rfl⟩
      · push_neg
        exact ⟨hv, hl, hrne, by omega⟩
      · rintro ⟨-, hcontra, -⟩
        rw [hflag] at hcontra
        cases hcontra
    refine ⟨_, _, hok, ?_⟩
    have hc := createMovement_ok_cached hok p.variantId p.locationId
    rw [if_pos ⟨rfl, rfl⟩] at hc
    have hsig : signedOf p.movementType p.qty = -p.qty := by
      rw [hout]
      rfl
    rw [hsig] at hc
    omega

/-- Witness for claim C3: with 5 pieces on hand and an OUT request for 9, the
disabled-flag store rejects with available 5 vs required 9 and is unchanged,
and the enabled-flag store ends at balance 5 - 9 = -4 < 0. -/
theorem out_exceeding_stock_policy_witness :
    (createMovement w3db w3p = .error (.insufficientStock 5 9) ∧
      step w3db (.move w3p) = w3db) ∧
    (∃ m s', createMovement w3dbNeg w3p = .ok (m, s') ∧
      cachedQty s' 1 1 = cachedQty w3dbNeg 1 1 - 9 ∧ cachedQty s' 1 1 < 0) := by
  constructor
  · exact (out_exceeding_stock_policy w3db w3p rfl (by decide) (by decide) (by decide)
      (by decide) (by decide) (by decide) (by decide)).1 rfl
  · exact (out_exceeding_stock_policy w3dbNeg w3p rfl (by decide) (by decide) (by decide)
      (by decide) (by decide) (by decide) (by decide)).2 rfl

/-- Claim C4: every successful transfer of q from A to B (A ≠ B) appends
exactly two movements (TRANSFER_OUT at A then TRANSFER_IN at B) sharing the
request's reference code, leaves balance(A) lowered by q and balance(B) raised
by q; a same-location transfer is rejected with the invalid-argument error. -/
theorem transfer_moves_and_balances (s : DB) (t : TransferReq) :
    (∀ outM inM s', transfer s t = .ok (outM, inM, s') →
      t.fromLocationId ≠ t.toLocationId ∧
      outM.movementType = .OUT ∧ outM.reasonCode = "TRANSFER_OUT" ∧
      outM.variantId = t.variantId ∧ outM.locationId = t.fromLocationId ∧
      outM.qty = t.qty ∧
      inM.movementType = .IN ∧ inM.reasonCode = "TRANSFER_IN" ∧
      inM.variantId = t.variantId ∧ inM.locationId = t.toLocationId ∧
      inM.qty = t.qty ∧
      outM.refCode = t.refCode ∧ inM.refCode = t.refCode ∧
      s'.movements = s.movements ++ [outM, inM] ∧
      cachedQty s' t.variantId t.fromLocationId =
        cachedQty s t.variantId t.fromLocationId - t.qty ∧
      cachedQty s' t.variantId t.toLocationId =
        cachedQty s t.variantId t.toLocationId + t.qty) ∧
    (t.fromLocationId = t.toLocationId →
      transfer s t = .error (.invalidArgument
        "Source and destination locations cannot be the same")) := by
  constructor
  · intro outM inM s' h
    obtain ⟨hne, s1, h1, h2⟩ := transfer_ok_elim h
    obtain ⟨o1, o2, o3, o4, o5, -, -, -, o9⟩ := createMovement_ok_fields h1
    obtain ⟨i1, i2, i3, i4, i5, -, -, -, i9⟩ := createMovement_ok_fields h2
    refine ⟨hne, o3, o4, o1, o2, o5, i3, i4, i1, i2, i5, o9, i9, ?_, ?_, ?_⟩
    · rw [createMovement_ok_movements h2, createMovement_ok_movements h1,
        List.append_assoc]
      rfl
    · have hc2 := createMovement_ok_cached h2 t.variantId t.fromLocationId
      have hc1 := createMovement_ok_cached h1 t.variantId t.fromLocationId
      rw [if_neg (by rintro ⟨-, hl⟩; exact hne hl.symm)] at hc2
      rw [if_pos ⟨rfl, rfl⟩] at hc1
      have hsig : signedOf (transferOutPayload t).movementType
          (transferOutPayload t).qty = -t.qty := rfl
      rw [hsig] at hc1
      omega
    · have hc2 := createMovement_ok_cached h2 t.variantId t.toLocationId
      have hc1 := createMovement_ok_cached h1 t.variantId t.toLocationId
      rw [if_pos ⟨rfl, rfl⟩] at hc2
      rw [if_neg (by rintro ⟨-, hl⟩; exact hne hl)] at hc1
      have hsig : signedOf (transferInPayload t).movementType
          (transferInPayload t).qty = t.qty := rfl
      rw [hsig] at hc2
      omega
  · exact fun h => transfer_same_error h

/-- Witness for claim C4: transferring 4 pieces from location 1 (holding 10) to
location 2 (holding 0) yields the OUT/IN pair with the shared reference code
and balances 6 and 4, and the same-location request is rejected. -/
theorem transfer_moves_and_balances_witness :
    (((transfer w4db w4t).toOption.getD (mDefault, mDefault, w4db)).2.2.movements =
        w4db.movements ++
          [((transfer w4db w4t).toOption.getD (mDefault, mDefault, w4db)).1,
           ((transfer w4db w4t).toOption.getD (mDefault, mDefault, w4db)).2.1] ∧
      cachedQty ((transfer w4db w4t).toOption.getD (mDefault, mDefault, w4db)).2.2 1 1 =
        cachedQty w4db 1 1 - 4 ∧
      cachedQty ((transfer w4db w4t).toOption.getD (mDefault, mDefault, w4db)).2.2 1 2 =
        cachedQty w4db 1 2 + 4) ∧
    transfer w4db w4tSame = .error (.invalidArgument
      "Source and destination locations cannot be the same") := by
  constructor
  · have hok : transfer w4db w4t =
        .ok (((transfer w4db w4t).toOption.getD (mDefault, mDefault, w4db)).1,
          ((transfer w4db w4t).toOption.getD (mDefault, mDefault, w4db)).2.1,
          ((transfer w4db w4t).toOption.getD (mDefault, mDefault, w4db)).2.2) := rfl
    have h := (transfer_moves_and_balances w4db w4t).1 _ _ _ hok
    exact ⟨h.2.2.2.2.2.2.2.2.2.2.2.2.2.1, h.2.2.2.2.2.2.2.2.2.2.2.2.2.2⟩
  · exact (transfer_moves_and_balances w4db w4tSame).2 rfl

/-- Claim C5: committing an ACTIVE opname session books exactly one adjustment
movement per item with a non-null count and non-zero variance (IN/ADJUSTMENT_IN
with quantity |variance| for positive variance, OUT/ADJUSTMENT_OUT otherwise,
referencing the stock_opname session); zero-variance and uncounted items book
none. In particular, the session with items (system 10, counted 7),
(system 5, counted 5), (system 0, counted 3) produces exactly the two
adjustments IN 3 and OUT 3, and post-commit balances are 7, 5, 3 — the counted
quantities. -/
theorem opname_commit_adjustments :
    (∀ (s : DB) (oid : Nat) (cb : Option String) (res : CommitResult) (s' : DB),
      commitOpname s oid cb = .ok (res, s') →
      res.adjustments.length = (eligibleItems s oid).length ∧
      ∀ k (hk : k < res.adjustments.length) (hk' : k < (eligibleItems s oid).length),
        (res.adjustments.get ⟨k, hk⟩).variantId =
          ((eligibleItems s oid).get ⟨k, hk'⟩).variantId ∧
        (res.adjustments.get ⟨k, hk⟩).locationId =
          ((eligibleItems s oid).get ⟨k, hk'⟩).locationId ∧
        (res.adjustments.get ⟨k, hk⟩).movementType =
          (if 0 < ((eligibleItems s oid).get ⟨k, hk'⟩).varianceQty.getD 0
            then MType.IN else MType.OUT) ∧
        (res.adjustments.get ⟨k, hk⟩).reasonCode =
          (if 0 < ((eligibleItems s oid).get ⟨k, hk'⟩).varianceQty.getD 0
            then "ADJUSTMENT_IN" else "ADJUSTMENT_OUT") ∧
        (res.adjustments.get ⟨k, hk⟩).qty =
          |((eligibleItems s oid).get ⟨k, hk'⟩).varianceQty.getD 0| ∧
        (res.adjustments.get ⟨k, hk⟩).refTable = some "stock_opname" ∧
        (res.adjustments.get ⟨k, hk⟩).refId = some oid) ∧
    ((commitOpname opnameExampleDB 1 (some "admin")).map (fun r =>
        (r.1.adjustments.map (fun m => (m.movementType, m.reasonCode, m.qty,
          m.variantId, m.locationId, m.refTable, m.refId, m.refCode)),
         cachedQty r.2 1 1, cachedQty r.2 2 1, cachedQty r.2 3 1,
         r.2.opnames.map OpnameSession.status, r.1.totalAdjustments)) =
      Except.ok ([(MType.IN, "ADJUSTMENT_IN", 3, 3, 1, some "stock_opname", some 1,
              some "OP-1"),
            (MType.OUT, "ADJUSTMENT_OUT", 3, 1, 1, some "stock_opname", some 1,
              some "OP-1")],
           7, 5, 3, [OpStatus.COMPLETED], 2)) := by
  constructor
  · intro s oid cb res s' h
    obtain ⟨sess, adjs, s1, -, hb, (hadj : res.adjustments = adjs), -, -, -⟩ :=
      commitOpname_ok_elim h
    obtain ⟨hlen, hspec⟩ := bookAdjustments_ok_spec _ _ _ _ hb
    rw [hadj]
    refine ⟨hlen, ?_⟩
    intro k hk hk'
    obtain ⟨f1, f2, f3, f4, f5, f6, f7, -⟩ := hspec k hk hk'
    exact ⟨f1, f2, f3, f4, f5, f6, f7⟩
  · decide

/-- Witness for claim C5: the general clause applied to the example session:
the commit books as many adjustments as there are counted items with non-zero
variance — two. -/
theorem opname_commit_adjustments_witness :
    ((commitOpname opnameExampleDB 1 (some "admin")).toOption.getD
        (commitDefault, opnameExampleDB)).1.adjustments.length =
      (eligibleItems opnameExampleDB 1).length := by
  have hok : commitOpname opnameExampleDB 1 (some "admin") =
      .ok (((commitOpname opnameExampleDB 1 (some "admin")).toOption.getD
          (commitDefault, opnameExampleDB)).1,
        ((commitOpname opnameExampleDB 1 (some "admin")).toOption.getD
          (commitDefault, opnameExampleDB)).2) := rfl
  exact (opname_commit_adjustments.1 opnameExampleDB 1 (some "admin") _ _ hok).1

/-- Claim C6: committing a session that is not currently ACTIVE (in particular
an already COMPLETED one) fails with the invalid-state error, books nothing,
and the rolled-back request leaves the store unchanged. -/
theorem opname_commit_requires_active (s : DB) (oid : Nat) (cb : Option String)
    (h : ∀ o ∈ s.opnames, o.id = oid → o.status ≠ OpStatus.ACTIVE) :
    commitOpname s oid cb = .error (.invalidState "Opname not found or not active") ∧
    step s (.opCommit oid cb) = s := by
  have he := @commitOpname_not_active s oid cb h
  exact ⟨he, step_commit_of_error he⟩

/-- Witness for claim C6: re-committing the already COMPLETED session of w6db
fails with the invalid-state error and leaves the store untouched. -/
theorem opname_commit_requires_active_witness :
    commitOpname w6db 1 (some "admin") =
      .error (.invalidState "Opname not found or not active") ∧
    step w6db (.opCommit 1 (some "admin")) = w6db :=
  opname_commit_requires_active w6db 1 (some "admin") (by decide)

/-- Counterexample to claim C7: on the reachable store c7db (two IN movements
of 5 and 7), a stock-card query whose window extends to now but is truncated by
the row limit succeeds with final running balance 5 while the cached current
balance is 12 — the mismatch is returned, not surfaced as an integrity fault. -/
theorem stock_card_mismatch_not_surfaced :
    (getStockCard c7db 1 1 1 1 none none 1).map
      (fun c => (c.rows.map StockCardRow.runningBalance, c.currentQty)) =
      Except.ok ([5], 12) := by
  decide

/-- Claim C7 (amended): getStockCard computes the opening balance as the signed
ledger sum strictly before fromDate (0 when fromDate is omitted) and a running
balance per returned row; it returns the cached current balance alongside but
performs no reconciliation between the final running balance and the cache —
the only failure is the variant-not-found error. -/
theorem stock_card_opening_and_running (s : DB) (pid cid szid lid : Nat)
    (fd td : Option Nat) (lim : Nat) :
    (∀ card, getStockCard s pid cid szid lid fd td lim = .ok card →
      card.openingQty = openingOf s card.variantId lid fd ∧
      card.currentQty = cachedQty s card.variantId lid ∧
      ∀ k, k < card.rows.length →
        (card.rows.getD k rowDefault).runningBalance =
          card.openingQty + ((card.rows.take (k + 1)).map StockCardRow.qtyChange).sum) ∧
    (∀ e, getStockCard s pid cid szid lid fd td lim = .error e →
      e = .notFound "Variant not found") := by
  constructor
  · intro card h
    obtain ⟨-, hop, hcur, sliced, hrows⟩ := getStockCard_ok_elim h
    refine ⟨hop, hcur, ?_⟩
    intro k hk
    have hlen : card.rows.length = sliced.length := by
      rw [hrows, withRunning_length]
    rw [hrows]
    exact withRunning_spec sliced card.openingQty k (by omega)
  · intro e h
    exact getStockCard_error_elim h

/-- Witness for claim C7 (amended): on the truncated reachable query, the
returned opening balance is 0, the cached quantity is reported unchanged, and
the single row's running balance is 0 + 5. -/
theorem stock_card_opening_and_running_witness :
    ((getStockCard c7db 1 1 1 1 none none 1).toOption.getD cardDefault).openingQty =
      openingOf c7db
        ((getStockCard c7db 1 1 1 1 none none 1).toOption.getD cardDefault).variantId
        1 none ∧
    ((getStockCard c7db 1 1 1 1 none none 1).toOption.getD cardDefault).currentQty =
      cachedQty c7db
        ((getStockCard c7db 1 1 1 1 none none 1).toOption.getD cardDefault).variantId
        1 := by
  have hok : getStockCard c7db 1 1 1 1 none none 1 =
      .ok ((getStockCard c7db 1 1 1 1 none none 1).toOption.getD cardDefault) := rfl
  have h := (stock_card_opening_and_running c7db 1 1 1 1 none none 1).1 _ hok
  exact ⟨h.1, h.2.1⟩

/-- Claim C8 (divergence witness): resolving the alias-mapped product name
'T-SHIRT KATUN' twice from the fresh store creates the variant under the
mapped name 'T-shirt Katun PDK' (created = true), and the second call — whose
existence lookup uses the raw name and therefore misses the stored variant —
crashes into the UNIQUE (product_color_id, size_id) key of product_color_sizes
instead of returning the same id with created = false. -/
theorem resolve_alias_second_call_fails :
    (resolveVariantId (initDB false) "T-SHIRT KATUN" "HITAM" "M").map
      (fun r => r.2.1) = Except.ok true ∧
    ((resolveVariantId (initDB false) "T-SHIRT KATUN" "HITAM" "M").map
      (fun r => r.2.2.products.map ProductRow.name)) =
      Except.ok ["T-shirt Katun PDK"] ∧
    ((resolveVariantId (initDB false) "T-SHIRT KATUN" "HITAM" "M").bind
      (fun r => resolveVariantId r.2.2 "T-SHIRT KATUN" "HITAM" "M")) =
      .error (.dupEntry "product_color_sizes") := by
  refine ⟨?_, ?_, ?_⟩ <;> decide

/-- Claim C9: an OUT request at a pair with no balance row treats the available
quantity as 0: with negative stock disabled it fails with the
insufficient-stock error reporting available 0 (not a not-found error); with
negative stock enabled it succeeds and inserts a fresh balance row holding the
negative quantity. -/
theorem out_without_balance_row (s : DB) (p : MovePayload)
    (hout : p.movementType = .OUT)
    (hrow : findBalance s p.variantId p.locationId = none)
    (hv : p.variantId ≠ 0) (hl : p.locationId ≠ 0) (hq : 0 < p.qty)
    (hr : p.reasonCode ∈ validReasons p.movementType)
    (hfk : (s.variants.any fun r => r.id == p.variantId) = true)
    (hfk2 : s.locations.contains p.locationId = true) :
    (s.allowNegative = false →
      createMovement s p = .error (.insufficientStock 0 p.qty)) ∧
    (s.allowNegative = true →
      ∃ m s', createMovement s p = .ok (m, s') ∧
        findBalance s' p.variantId p.locationId =
          some ⟨p.variantId, p.locationId, -p.qty, 0⟩ ∧
        -p.qty < 0) := by
  have hrne : p.reasonCode ≠ "" := by
    rw [hout] at hr
    intro he
    rw [he] at hr
    exact absurd hr (by decide)
  have hzero : cachedQty s p.variantId p.locationId = 0 := by
    unfold cachedQty
    rw [hrow]
  constructor
  · intro hflag
    have he := createMovement_insufficient hout hflag (by omega) hv hl hq hr
    rwa [hzero] at he
  · intro hflag
    have hok : createMovement s p = .ok (mkMovement s p,
        updateStockBalance (advanceLedger s (mkMovement s p)) p.variantId p.locationId
          p.movementType p.qty p.unitCost) := by
      apply createMovement_ok_iff.mpr
      refine ⟨?_, by omega, hr, ?_, ⟨hfk, hfk2⟩, rfl, rfl⟩
      · push_neg
        exact ⟨hv, hl, hrne, by omega⟩
      · rintro ⟨-, hcontra, -⟩
        rw [hflag] at hcontra
        cases hcontra
    refine ⟨_, _, hok, ?_, by omega⟩
    have hrow' : findBalance (advanceLedger s (mkMovement s p)) p.variantId
        p.locationId = none := hrow
    rw [hout]
    exact findBalance_update_out_insert hrow'

/-- Witness for claim C9: at the rowless pair of w9db, an OUT of 3 is rejected
with available 0 when the flag is off, and with the flag on it succeeds and
inserts the balance row (1, 1, -3, 0). -/
theorem out_without_balance_row_witness :
    createMovement w9db w9p = .error (.insufficientStock 0 3) ∧
    (∃ m s', createMovement w9dbNeg w9p = .ok (m, s') ∧
      findBalance s' 1 1 = some ⟨1, 1, -3, 0⟩ ∧ (-3 : Int) < 0) := by
  constructor
  · exact (out_without_balance_row w9db w9p rfl rfl (by decide) (by decide) (by decide)
      (by decide) (by decide) (by decide)).1 rfl
  · exact (out_without_balance_row w9dbNeg w9p rfl rfl (by decide) (by decide)
      (by decide) (by decide) (by decide) (by decide)).2 rfl

/-- Claim C10: within one opname commit the adjustments are booked in
descending variance order, so in the returned list every ADJUSTMENT_IN
(positive variance) movement precedes every ADJUSTMENT_OUT (negative variance)
movement; each movement is validated against the state holding all earlier
adjustments of the same commit. -/
theorem opname_commit_in_before_out (s : DB) (oid : Nat) (cb : Option String)
    (res : CommitResult) (s' : DB) (h : commitOpname s oid cb = .ok (res, s')) :
    ∀ i j, i < j → j < res.adjustments.length →
      (res.adjustments.getD j mDefault).movementType = .IN →
      (res.adjustments.getD i mDefault).movementType = .IN := by
  obtain ⟨sess, adjs, s1, -, hb, (hadj : res.adjustments = adjs), -, -, -⟩ :=
    commitOpname_ok_elim h
  obtain ⟨hlen, hspec⟩ := bookAdjustments_ok_spec _ _ _ _ hb
  have hsorted : List.Sorted varDesc (eligibleItems s oid) :=
    List.sorted_insertionSort varDesc _
  intro i j hij hj hjIN
  rw [hadj] at hj hjIN ⊢
  have hi : i < adjs.length := by omega
  have hi' : i < (eligibleItems s oid).length := by omega
  have hj' : j < (eligibleItems s oid).length := by omega
  rw [List.getD_eq_get adjs mDefault hj] at hjIN
  rw [List.getD_eq_get adjs mDefault hi]
  obtain ⟨-, -, htj, -⟩ := hspec j hj hj'
  obtain ⟨-, -, hti, -⟩ := hspec i hi hi'
  have hvj : 0 < ((eligibleItems s oid).get ⟨j, hj'⟩).varianceQty.getD 0 := by
    by_contra hneg
    rw [htj, if_neg hneg] at hjIN
    cases hjIN
  have hdesc : varDesc ((eligibleItems s oid).get ⟨i, hi'⟩)
      ((eligibleItems s oid).get ⟨j, hj'⟩) :=
    List.pairwise_iff_get.mp hsorted ⟨i, hi'⟩ ⟨j, hj'⟩ hij
  have hvi : 0 < ((eligibleItems s oid).get ⟨i, hi'⟩).varianceQty.getD 0 :=
    lt_of_lt_of_le hvj hdesc
  rw [hti, if_pos hvi]

/-- Witness for claim C10: committing the session of w10db (variances +3 and
+2) books two adjustments, and since the second is IN, the order theorem gives
that the first is IN as well. -/
theorem opname_commit_in_before_out_witness :
    (((commitOpname w10db 1 none).toOption.getD
        (commitDefault, w10db)).1.adjustments.getD 0 mDefault).movementType =
      MType.IN := by
  have hok : commitOpname w10db 1 none =
      .ok (((commitOpname w10db 1 none).toOption.getD (commitDefault, w10db)).1,
        ((commitOpname w10db 1 none).toOption.getD (commitDefault, w10db)).2) := rfl
  exact opname_commit_in_before_out w10db 1 none _ _ hok 0 1 (by decide) (by decide)
    (by decide)

end Kustom
